import Mathlib

/-!
# Verification of the InsightX conversational BI engine

A shallow embedding of `Backend/Insightxmodel.py`: the embedded knowledge
base, the rule-based NLP engine (intent classification and entity
extraction), the response generator with its per-intent handlers, and the
model's `query` entry point.

Modelling conventions:
* Python machine floats are modelled as exact rationals (`ℚ`).  All numeric
  literals in the knowledge base are exact decimals, so this is faithful;
  decimal rounding (`round`, `"%.nf"` formatting) is modelled with
  round-half-to-even at the decimal level.
* Python `dict`s of numeric aggregates are modelled as association lists in
  insertion order (`Rec`); `d.get(k)` is an `Option`-returning lookup.
* Python code that can raise (`KeyError`, `ZeroDivisionError`,
  `IndexError`, formatting `None`) is modelled in the `Option` monad:
  `none` is an uncaught exception.
* `re.search` with the concrete patterns of the source reduces to substring
  search (each pattern is an alternation of literal substrings, possibly
  with `\s*`/`\d*` suffixes that can match the empty string); the reduction
  is noted pattern by pattern where it happens.
-/

/-! ## Decimal formatting helpers (Python `round` / format specs) -/

/-- The floor of a rational, computably (`Int.fdiv` is floor division). -/
def ratFloor (x : ℚ) : ℤ := Int.fdiv x.num (x.den : ℤ)

/-- Round half to even to an integer, as Python `round`/`"%.nf"` do. -/
def rhe (x : ℚ) : ℤ :=
  let f : ℤ := ratFloor x
  let frac : ℚ := x - (f : ℚ)
  if frac < 1/2 then f
  else if 1/2 < frac then f + 1
  else if f % 2 = 0 then f else f + 1

/-- Python `round(x, k)`: round half to even at `k` decimal places. -/
def roundTo (k : ℕ) (x : ℚ) : ℚ :=
  (rhe (x * (10 : ℚ) ^ k) : ℚ) / (10 : ℚ) ^ k

/-- Left-pad a digit string with zeros to the given length. -/
def padZeros (len : ℕ) (s : String) : String :=
  String.mk (List.replicate (len - s.length) '0') ++ s

/-- Python fixed-point formatting `f"{x:.pf}"` (half-even rounding). -/
def fmtFixed (prec : ℕ) (x : ℚ) : String :=
  let n : ℤ := rhe (x * (10 : ℚ) ^ prec)
  let sign := if n < 0 then "-" else ""
  let m : ℕ := n.natAbs
  let ip : ℕ := m / 10 ^ prec
  let fp : ℕ := m % 10 ^ prec
  if prec = 0 then sign ++ toString ip
  else sign ++ toString ip ++ "." ++ padZeros prec (toString fp)

/-- Comma insertion on a reversed digit list: one comma before every
group of three digits. -/
def group3Go : List Char → List Char
  | a :: b :: c :: d :: rest => a :: ',' :: group3Go (b :: c :: d :: rest)
  | l => l

/-- Insert a comma before every group of three digits, from the right. -/
def group3 (s : String) : String :=
  String.mk (group3Go s.data.reverse).reverse

/-- Python `f"{n:,}"` for an integer. -/
def fmtComma (n : ℕ) : String := group3 (toString n)

/-- Python `f"{x:,.pf}"`: fixed decimals with a comma-grouped integer part. -/
def fmtCommaFixed (prec : ℕ) (x : ℚ) : String :=
  let n : ℤ := rhe (x * (10 : ℚ) ^ prec)
  let sign := if n < 0 then "-" else ""
  let m : ℕ := n.natAbs
  let ip : ℕ := m / 10 ^ prec
  let fp : ℕ := m % 10 ^ prec
  if prec = 0 then sign ++ group3 (toString ip)
  else sign ++ group3 (toString ip) ++ "." ++ padZeros prec (toString fp)

/-- Number of decimal digits needed to write `x` exactly (capped at 12). -/
def decDigits (x : ℚ) : ℕ :=
  ((List.range 13).find? (fun k => (x * (10 : ℚ) ^ k).den = 1)).getD 12

/-- Python `f"{x}"` for a float modelled as an exact-decimal rational:
prints the shortest decimal form (integral values print without `.0`). -/
def pyStr (x : ℚ) : String := fmtFixed (decDigits x) x

/-- Python `f"{x:,}"` for a float: shortest decimal form with a
comma-grouped integer part. -/
def fmtCommaQ (x : ℚ) : String := fmtCommaFixed (decDigits x) x

/-! ## String helpers

Python's `str.lower` is per-character lowercasing (the source only ever
lowercases ASCII vocabulary and queries), and `str.replace` replaces every
non-overlapping occurrence left to right. -/

/-- Python `s.lower()` (per-character, ASCII). -/
def lowerStr (s : String) : String := String.mk (s.data.map Char.toLower)

/-- Parse a digit string (used for `int(h)` on a regex digit capture). -/
def digitsToNat (cs : List Char) : ℕ :=
  cs.foldl (fun acc c => acc * 10 + (c.toNat - 48)) 0

/-- Python `s.replace(pat, sub)` for a non-empty `pat`, on char lists;
`fuel` bounds the scan (the input length suffices). -/
def replaceSubAux (pat sub : List Char) (fuel : ℕ) (cs : List Char) : List Char :=
  match fuel with
  | 0 => cs
  | fuel' + 1 =>
    match cs with
    | [] => []
    | c :: t =>
      if pat.isPrefixOf cs && !pat.isEmpty then
        sub ++ replaceSubAux pat sub fuel' (cs.drop pat.length)
      else c :: replaceSubAux pat sub fuel' t

/-- Python `s.replace(pat, sub)`. -/
def replaceSub (s pat sub : String) : String :=
  String.mk (replaceSubAux pat.data sub.data s.data.length s.data)

/-! ## Substring search (Python `in` and the reduced `re.search` calls) -/

/-- `needle.isPrefixOf`-based containment check on character lists. -/
def listHas (hay needle : List Char) : Bool :=
  match hay with
  | [] => needle.isEmpty
  | _ :: t => needle.isPrefixOf hay || listHas t needle

/-- Python `needle in hay` on strings. -/
def strHas (hay needle : String) : Bool := listHas hay.data needle.data

/-- `re.search` of an alternation of literal substrings. -/
def anySub (hay : String) (needles : List String) : Bool :=
  needles.any (fun n => strHas hay n)

/-- `re.search` of `lit1 \s* lit2` (`minSp = 0`) or `lit1 \s+ lit2`
(`minSp = 1`).  The literals do not start with whitespace, so the greedy
whitespace run can be taken maximally without backtracking. -/
def seqSearchGo (lit1 : String) (minSp : ℕ) (lit2 : String) : List Char → Bool
  | [] => lit1.isEmpty && minSp = 0 && lit2.isEmpty
  | c :: rest =>
    (lit1.data.isPrefixOf (c :: rest) &&
      (let after := (c :: rest).drop lit1.length
       let sp := after.takeWhile Char.isWhitespace
       sp.length ≥ minSp && lit2.data.isPrefixOf (after.drop sp.length))) ||
    seqSearchGo lit1 minSp lit2 rest

/-- See `seqSearch`. -/
def seqSearch (hay : String) (lit1 : String) (minSp : ℕ) (lit2 : String) : Bool :=
  seqSearchGo lit1 minSp lit2 hay.data

/-! ## NLP engine (`class NLPEngine`)

`INTENT_PATTERNS` of the source maps each intent to a list of regex
patterns.  Every pattern there is an alternation of literal substrings,
after noting that
* `top\s*\d*` matches wherever `top` occurs (`\s*` and `\d*` accept the
  empty string),
* `transactions?` matches wherever `transaction` occurs (the `s` is
  optional),
* `vs\.?` matches wherever `vs` occurs (the dot is optional).
So each pattern is kept as its list of literal alternatives. -/

def INTENT_PATTERNS : List (String × List (List String)) :=
  [("FRAUD", [["fraud"], ["scam"], ["cheat"], ["fake"], ["suspicious"], ["risk"]]),
   ("FAILURE", [["fail"], ["unsuccessful"], ["declined"], ["rejected"], ["error"]]),
   ("AMOUNT", [["amount"], ["value"], ["worth"], ["spend"], ["avg", "average"],
               ["median"], ["max", "maximum", "highest", "largest"],
               ["min", "minimum", "smallest", "lowest"]]),
   ("VOLUME", [["volume"], ["total"], ["sum"], ["crore"], ["lakh"]]),
   ("COUNT", [["count"], ["number of"], ["how many"], ["transaction"]]),
   ("RANK", [["top"], ["rank"], ["best"], ["worst"], ["most"], ["least"],
             ["highest"], ["lowest"]]),
   ("COMPARE", [["compare", "comparison", "vs", "versus", "difference", "between"]]),
   ("TREND", [["trend"], ["over time"], ["month"], ["daily", "day", "week"],
              ["hour", "peak", "time", "when"]]),
   ("OVERVIEW", [["overview", "summary", "total", "overall", "all", "entire",
                  "complete", "dataset", "general"]]),
   ("ANOMALY", [["anomal"], ["spike"], ["outlier"], ["unusual"], ["strange"]])]

/-- `any(re.search(p, q) for p in patterns)` for one intent's pattern list. -/
def patternsMatch (q : String) (patterns : List (List String)) : Bool :=
  patterns.any (fun alts => anySub q alts)

/-- `NLPEngine.classify_intent`: every intent whose pattern set matches the
lowercased query, in `INTENT_PATTERNS` order; `["OVERVIEW"]` if none do. -/
def classify_intent (query : String) : List String :=
  let q := lowerStr query
  let matched := (INTENT_PATTERNS.filter (fun p => patternsMatch q p.2)).map Prod.fst
  if matched.isEmpty then ["OVERVIEW"] else matched

/-! ### Entity vocabularies -/

def CATEGORIES : List String :=
  ["Education", "Entertainment", "Food", "Fuel", "Grocery", "Healthcare",
   "Other", "Shopping", "Transport", "Utilities"]

def STATES : List String :=
  ["Andhra Pradesh", "Delhi", "Gujarat", "Karnataka", "Maharashtra",
   "Rajasthan", "Tamil Nadu", "Telangana", "Uttar Pradesh", "West Bengal"]

def BANKS : List String :=
  ["Axis", "HDFC", "ICICI", "IndusInd", "Kotak", "PNB", "SBI", "Yes Bank"]

def DEVICES : List String := ["Android", "iOS", "Web"]

def NETWORKS : List String := ["3G", "4G", "5G", "WiFi"]

def TX_TYPES : List String := ["P2P", "P2M", "Bill Payment", "Recharge"]

def AGE_GROUPS : List String := ["18-25", "26-35", "36-45", "46-55", "56+"]

def MONTHS : List String :=
  ["January", "February", "March", "April", "May", "June", "July", "August",
   "September", "October", "November", "December"]

def DAYS : List String :=
  ["Monday", "Tuesday", "Wednesday", "Thursday", "Friday", "Saturday", "Sunday"]

/-! ### Hour extraction

Model of `re.findall(r"\b(\d{1,2})\s*(?:pm|am|:00)|\bhour\s+(\d{1,2})\b", q)`
followed by `str(int(h))` on each captured group: a left-to-right scan that
at each position tries the first alternative, then the second, and on a
match resumes after its end.  `\d{1,2}` is greedy (two digits, then one);
the literals after `\s*`/`\s+` start with a non-space character, so the
greedy whitespace run is taken maximally. -/

def isWordChar (c : Char) : Bool := c.isAlphanum || c == '_'

/-- `\b` holds before the current position when the previous character is
a non-word character (or the string start); the characters the pattern
reads next are always word characters. -/
def boundaryBefore (prev : Option Char) : Bool :=
  match prev with
  | none => true
  | some c => !isWordChar c

/-- Literal match: returns the remaining characters. -/
def litMatch (lit : List Char) (cs : List Char) : Option (List Char) :=
  if lit.isPrefixOf cs then some (cs.drop lit.length) else none

/-- First alternative `\b(\d{1,2})\s*(?:pm|am|:00)`, tried at one position.
Returns the captured digits and the remaining characters. -/
def matchHourAlt1 (prev : Option Char) (cs : List Char) : Option (List Char × List Char) :=
  if !boundaryBefore prev then none else
  match cs with
  | d1 :: rest1 =>
    if !d1.isDigit then none else
    let suffix : List Char → Option (List Char) := fun l =>
      let sp := l.takeWhile Char.isWhitespace
      let l' := l.drop sp.length
      (litMatch ['p', 'm'] l').orElse (fun _ =>
        (litMatch ['a', 'm'] l').orElse (fun _ =>
          litMatch [':', '0', '0'] l'))
    match rest1 with
    | d2 :: rest2 =>
      if d2.isDigit then
        match suffix rest2 with
        | some rem => some ([d1, d2], rem)
        | none =>
          match suffix rest1 with
          | some rem => some ([d1], rem)
          | none => none
      else
        match suffix rest1 with
        | some rem => some ([d1], rem)
        | none => none
    | [] =>
      match suffix rest1 with
      | some rem => some ([d1], rem)
      | none => none
  | [] => none

/-- Second alternative `\bhour\s+(\d{1,2})\b`, tried at one position. -/
def matchHourAlt2 (prev : Option Char) (cs : List Char) : Option (List Char × List Char) :=
  if !boundaryBefore prev then none else
  match litMatch ['h', 'o', 'u', 'r'] cs with
  | none => none
  | some cs1 =>
    let sp := cs1.takeWhile Char.isWhitespace
    if sp.length = 0 then none else
    let cs2 := cs1.drop sp.length
    let boundaryAfter : List Char → Bool := fun l =>
      match l with
      | [] => true
      | c :: _ => !isWordChar c
    match cs2 with
    | d1 :: rest1 =>
      if !d1.isDigit then none else
      match rest1 with
      | d2 :: rest2 =>
        if d2.isDigit && boundaryAfter rest2 then some ([d1, d2], rest2)
        else if boundaryAfter rest1 then some ([d1], rest1)
        else none
      | [] => some ([d1], [])
    | [] => none

/-- One `findall` step: first alternative, then the second. -/
def matchHourAt (prev : Option Char) (cs : List Char) : Option (List Char × List Char) :=
  (matchHourAlt1 prev cs).orElse (fun _ => matchHourAlt2 prev cs)

/-- The scan loop; `fuel` bounds the number of steps (each step consumes at
least one character, so `cs.length` fuel suffices). -/
def scanHours (fuel : ℕ) (prev : Option Char) (cs : List Char) : List String :=
  match fuel with
  | 0 => []
  | fuel' + 1 =>
    match cs with
    | [] => []
    | c :: rest =>
      match matchHourAt prev cs with
      | some (cap, rem) =>
        String.mk cap :: scanHours fuel' ((cs.take (cs.length - rem.length)).getLast?) rem
      | none => scanHours fuel' (some c) rest

/-- `str(int(h))`: parse the digit capture and re-print it (drops leading
zeros). -/
def normHour (s : String) : String := toString (digitsToNat s.data)

def extractHours (q : String) : List String :=
  (scanHours q.data.length none q.data).map normHour

/-! ### Entity extraction (`NLPEngine.extract_entities`) -/

structure Entities where
  categories : List String
  states : List String
  banks : List String
  devices : List String
  networks : List String
  tx_types : List String
  ages : List String
  months : List String
  days : List String
  hours : List String
  metric : Option String
  deriving Repr, DecidableEq

/-- The requested-metric priority chain of `extract_entities` (each regex
is an alternation of literal substrings). -/
def extractMetric (q : String) : Option String :=
  if anySub q ["avg", "average", "mean"] then some "avg"
  else if anySub q ["median"] then some "median"
  else if anySub q ["max", "maximum", "highest", "largest"] then some "max"
  else if anySub q ["min", "minimum", "lowest", "smallest"] then some "min"
  else if anySub q ["total", "sum", "volume"] then some "total_volume"
  else if anySub q ["count", "how many", "number"] then some "count"
  else if anySub q ["fraud"] then some "fraud_rate_pct"
  else if anySub q ["fail"] then some "fail_rate_pct"
  else none

/-- `NLPEngine.extract_entities`: every vocabulary value found in the
query, in vocabulary order.  Age groups are matched case-sensitively
against the original query, then the synonym regexes
`young|youth|teen` and `senior|elder|old` append the extreme brackets. -/
def extract_entities (query : String) : Entities :=
  let q_lower := lowerStr query
  let q_orig := query
  { categories := CATEGORIES.filter (fun c => strHas q_lower (lowerStr c))
    states := STATES.filter (fun s => strHas q_lower (lowerStr s))
    banks := BANKS.filter (fun b => strHas q_lower (lowerStr b))
    devices := DEVICES.filter (fun d => strHas q_lower (lowerStr d))
    networks := NETWORKS.filter (fun n => strHas q_lower (lowerStr n))
    tx_types := TX_TYPES.filter (fun t => strHas q_lower (lowerStr t))
    ages := AGE_GROUPS.filter (fun a => strHas q_orig a)
      ++ (if anySub q_lower ["young", "youth", "teen"] then ["18-25"] else [])
      ++ (if anySub q_lower ["senior", "elder", "old"] then ["56+"] else [])
    months := MONTHS.filter (fun m => strHas q_lower (lowerStr m))
    days := DAYS.filter (fun d => strHas q_lower (lowerStr d))
    hours := extractHours q_lower
    metric := extractMetric q_lower }

/-! ## Knowledge base (`KNOWLEDGE_BASE`, SECTION 1 of the source)

Each per-dimension-value aggregate record is a Python dict of numeric
fields; it is modelled as an association list in insertion order.  The
nested `by_category_avg` dicts of `by_device` are kept in a separate
table (`KB_device_by_category_avg`), used only by the deep-dive handler.
-/

/-- A per-dimension-value aggregate record. -/
abbrev Rec := List (String × ℚ)

/-- Python `d.get(k)` on an aggregate record. -/
def recGet (r : Rec) (k : String) : Option ℚ := List.lookup k r

/-- One entry of `top10_transactions`. -/
structure Txn where
  amount : ℕ
  category : String
  tx_type : String
  state : String
  device : String
  network : String
  status : String
  fraud : ℕ
  hour : ℕ
  day : String
  deriving Repr, DecidableEq

/-- The `fraud_analysis` record. -/
structure FraudAnalysis where
  total : ℕ
  avg_amount : ℚ
  max_amount : ℕ
  min_amount : ℕ
  top_category : String
  top_state : String
  top_bank : String
  top_device : String
  top_hour : ℕ
  deriving Repr, DecidableEq

def KB_by_category : List (String × Rec) :=
  [("Education", [("count", 7598), ("total_volume", 38704346), ("avg", 5094.02), ("median", 3670.0), ("max", 42099), ("min", 215), ("fraud_count", 16), ("fraud_rate_pct", 0.211), ("fail_rate_pct", 5.25)]),
   ("Entertainment", [("count", 20103), ("total_volume", 8309080), ("avg", 413.33), ("median", 294.0), ("max", 5289), ("min", 34), ("fraud_count", 40), ("fraud_rate_pct", 0.199), ("fail_rate_pct", 4.92)]),
   ("Food", [("count", 37464), ("total_volume", 19919402), ("avg", 531.69), ("median", 332.0), ("max", 6409), ("min", 10), ("fraud_count", 73), ("fraud_rate_pct", 0.195), ("fail_rate_pct", 5.01)]),
   ("Fuel", [("count", 25063), ("total_volume", 38982575), ("avg", 1555.38), ("median", 1037.0), ("max", 8468), ("min", 134), ("fraud_count", 48), ("fraud_rate_pct", 0.192), ("fail_rate_pct", 4.8)]),
   ("Grocery", [("count", 49966), ("total_volume", 58277893), ("avg", 1166.35), ("median", 821.0), ("max", 9611), ("min", 33), ("fraud_count", 94), ("fraud_rate_pct", 0.188), ("fail_rate_pct", 5.01)]),
   ("Healthcare", [("count", 12663), ("total_volume", 6874159), ("avg", 542.85), ("median", 384.0), ("max", 8485), ("min", 49), ("fraud_count", 21), ("fraud_rate_pct", 0.166), ("fail_rate_pct", 4.83)]),
   ("Other", [("count", 24828), ("total_volume", 21073449), ("avg", 848.78), ("median", 615.0), ("max", 19289), ("min", 31), ("fraud_count", 50), ("fraud_rate_pct", 0.201), ("fail_rate_pct", 4.95)]),
   ("Shopping", [("count", 29872), ("total_volume", 76863207), ("avg", 2573.09), ("median", 1564.0), ("max", 27259), ("min", 32), ("fraud_count", 62), ("fraud_rate_pct", 0.208), ("fail_rate_pct", 5.09)]),
   ("Transport", [("count", 20105), ("total_volume", 6192416), ("avg", 308.0), ("median", 189.0), ("max", 5171), ("min", 10), ("fraud_count", 43), ("fraud_rate_pct", 0.214), ("fail_rate_pct", 4.76)]),
   ("Utilities", [("count", 22338), ("total_volume", 52742482), ("avg", 2361.11), ("median", 1863.5), ("max", 30351), ("min", 47), ("fraud_count", 33), ("fraud_rate_pct", 0.148), ("fail_rate_pct", 4.86)])]

def KB_by_state : List (String × Rec) :=
  [("Andhra Pradesh", [("count", 20006), ("total_volume", 25952619), ("avg", 1297.24), ("fraud_rate_pct", 0.175)]),
   ("Delhi", [("count", 24870), ("total_volume", 32689865), ("avg", 1314.43), ("fraud_rate_pct", 0.201)]),
   ("Gujarat", [("count", 20061), ("total_volume", 25988190), ("avg", 1295.46), ("fraud_rate_pct", 0.214)]),
   ("Karnataka", [("count", 29756), ("total_volume", 38451158), ("avg", 1292.22), ("fraud_rate_pct", 0.232)]),
   ("Maharashtra", [("count", 37427), ("total_volume", 49043948), ("avg", 1310.39), ("fraud_rate_pct", 0.19)]),
   ("Rajasthan", [("count", 19981), ("total_volume", 26730470), ("avg", 1337.79), ("fraud_rate_pct", 0.23)]),
   ("Tamil Nadu", [("count", 25367), ("total_volume", 33343518), ("avg", 1314.44), ("fraud_rate_pct", 0.158)]),
   ("Telangana", [("count", 22435), ("total_volume", 29750930), ("avg", 1326.09), ("fraud_rate_pct", 0.174)]),
   ("Uttar Pradesh", [("count", 30125), ("total_volume", 40035717), ("avg", 1328.99), ("fraud_rate_pct", 0.173)]),
   ("West Bengal", [("count", 19972), ("total_volume", 25952594), ("avg", 1299.45), ("fraud_rate_pct", 0.175)])]

def KB_by_bank : List (String × Rec) :=
  [("Axis", [("count", 25042), ("total_volume", 32472530), ("avg", 1296.72), ("max", 37263), ("fraud_rate_pct", 0.196)]),
   ("HDFC", [("count", 37485), ("total_volume", 49791194), ("avg", 1328.3), ("max", 41210), ("fraud_rate_pct", 0.165)]),
   ("ICICI", [("count", 29769), ("total_volume", 38731193), ("avg", 1301.06), ("max", 28544), ("fraud_rate_pct", 0.222)]),
   ("IndusInd", [("count", 25173), ("total_volume", 32842711), ("avg", 1304.68), ("max", 42099), ("fraud_rate_pct", 0.207)]),
   ("Kotak", [("count", 20032), ("total_volume", 26315412), ("avg", 1313.67), ("max", 30584), ("fraud_rate_pct", 0.25)]),
   ("PNB", [("count", 24946), ("total_volume", 32476972), ("avg", 1301.89), ("max", 34304), ("fraud_rate_pct", 0.208)]),
   ("SBI", [("count", 62693), ("total_volume", 82816520), ("avg", 1320.99), ("max", 29601), ("fraud_rate_pct", 0.174)]),
   ("Yes Bank", [("count", 24860), ("total_volume", 32492477), ("avg", 1307.02), ("max", 33061), ("fraud_rate_pct", 0.161)])]

def KB_by_device : List (String × Rec) :=
  [("Android", [("count", 187777), ("total_volume", 246736086), ("avg", 1313.98), ("max", 42099), ("fraud_rate_pct", 0.194), ("fail_rate_pct", 4.94)]),
   ("iOS", [("count", 49613), ("total_volume", 64799708), ("avg", 1306.1), ("max", 30351), ("fraud_rate_pct", 0.181), ("fail_rate_pct", 4.93)]),
   ("Web", [("count", 12610), ("total_volume", 16403215), ("avg", 1300.81), ("max", 27541), ("fraud_rate_pct", 0.206), ("fail_rate_pct", 5.15)])]

def KB_by_network : List (String × Rec) :=
  [("3G", [("count", 12471), ("avg", 1325.88), ("fraud_rate_pct", 0.192)]),
   ("4G", [("count", 149813), ("avg", 1305.88), ("fraud_rate_pct", 0.188)]),
   ("5G", [("count", 62582), ("avg", 1316.06), ("fraud_rate_pct", 0.184)]),
   ("WiFi", [("count", 25134), ("avg", 1329.05), ("fraud_rate_pct", 0.235)])]

def KB_by_tx_type : List (String × Rec) :=
  [("P2P", [("count", 112445), ("total_volume", 147154648), ("avg", 1308.68), ("fraud_rate_pct", 0.183), ("fail_rate_pct", 4.96)]),
   ("P2M", [("count", 87660), ("total_volume", 115717567), ("avg", 1320.07), ("fraud_rate_pct", 0.191), ("fail_rate_pct", 4.95)]),
   ("Bill Payment", [("count", 37368), ("total_volume", 48895743), ("avg", 1308.49), ("fraud_rate_pct", 0.206), ("fail_rate_pct", 4.88)]),
   ("Recharge", [("count", 12527), ("total_volume", 16171051), ("avg", 1290.9), ("fraud_rate_pct", 0.239), ("fail_rate_pct", 5.09)])]

def KB_by_age : List (String × Rec) :=
  [("18-25", [("count", 62345), ("total_volume", 74473936), ("avg", 1194.55), ("fraud_rate_pct", 0.229)]),
   ("26-35", [("count", 87432), ("total_volume", 115959771), ("avg", 1326.29), ("fraud_rate_pct", 0.186)]),
   ("36-45", [("count", 62873), ("total_volume", 89533745), ("avg", 1424.04), ("fraud_rate_pct", 0.184)]),
   ("46-55", [("count", 24841), ("total_volume", 33116261), ("avg", 1333.13), ("fraud_rate_pct", 0.125)]),
   ("56+", [("count", 12509), ("total_volume", 14855296), ("avg", 1187.57), ("fraud_rate_pct", 0.216)])]

def KB_by_hour : List (String × Rec) :=
  [("0", [("count", 3388), ("total_volume", 4532884), ("avg", 1337.92), ("fraud_rate_pct", 0.236)]),
   ("1", [("count", 2244), ("total_volume", 2914350), ("avg", 1298.73), ("fraud_rate_pct", 0.267)]),
   ("2", [("count", 1685), ("total_volume", 2173750), ("avg", 1290.06), ("fraud_rate_pct", 0.178)]),
   ("3", [("count", 1314), ("total_volume", 1678669), ("avg", 1277.53), ("fraud_rate_pct", 0.304)]),
   ("4", [("count", 1247), ("total_volume", 1670700), ("avg", 1339.78), ("fraud_rate_pct", 0.08)]),
   ("5", [("count", 1742), ("total_volume", 2134122), ("avg", 1225.1), ("fraud_rate_pct", 0.057)]),
   ("6", [("count", 3501), ("total_volume", 4617034), ("avg", 1318.78), ("fraud_rate_pct", 0.143)]),
   ("7", [("count", 5630), ("total_volume", 7482766), ("avg", 1329.09), ("fraud_rate_pct", 0.231)]),
   ("8", [("count", 8349), ("total_volume", 10979614), ("avg", 1315.08), ("fraud_rate_pct", 0.216)]),
   ("9", [("count", 10450), ("total_volume", 13809021), ("avg", 1321.44), ("fraud_rate_pct", 0.191)]),
   ("10", [("count", 13904), ("total_volume", 18337313), ("avg", 1318.85), ("fraud_rate_pct", 0.144)]),
   ("11", [("count", 16328), ("total_volume", 21193161), ("avg", 1297.96), ("fraud_rate_pct", 0.165)]),
   ("12", [("count", 17516), ("total_volume", 23406280), ("avg", 1336.28), ("fraud_rate_pct", 0.171)]),
   ("13", [("count", 15038), ("total_volume", 19847819), ("avg", 1319.84), ("fraud_rate_pct", 0.166)]),
   ("14", [("count", 11472), ("total_volume", 14848621), ("avg", 1294.34), ("fraud_rate_pct", 0.183)]),
   ("15", [("count", 12624), ("total_volume", 16658144), ("avg", 1319.56), ("fraud_rate_pct", 0.253)]),
   ("16", [("count", 13992), ("total_volume", 17921125), ("avg", 1280.81), ("fraud_rate_pct", 0.222)]),
   ("17", [("count", 18340), ("total_volume", 24514186), ("avg", 1336.65), ("fraud_rate_pct", 0.202)]),
   ("18", [("count", 20064), ("total_volume", 26297174), ("avg", 1310.66), ("fraud_rate_pct", 0.155)]),
   ("19", [("count", 21232), ("total_volume", 28223522), ("avg", 1329.29), ("fraud_rate_pct", 0.203)]),
   ("20", [("count", 18506), ("total_volume", 23822014), ("avg", 1287.26), ("fraud_rate_pct", 0.2)]),
   ("21", [("count", 16253), ("total_volume", 20995491), ("avg", 1291.79), ("fraud_rate_pct", 0.215)]),
   ("22", [("count", 9364), ("total_volume", 12050824), ("avg", 1286.93), ("fraud_rate_pct", 0.246)]),
   ("23", [("count", 5817), ("total_volume", 7830425), ("avg", 1346.13), ("fraud_rate_pct", 0.155)])]

def KB_by_day : List (String × Rec) :=
  [("Monday", [("count", 36495), ("total_volume", 47882908), ("avg", 1312.04), ("fraud_rate_pct", 0.195)]),
   ("Tuesday", [("count", 35540), ("total_volume", 46846390), ("avg", 1318.13), ("fraud_rate_pct", 0.163)]),
   ("Wednesday", [("count", 35700), ("total_volume", 46815663), ("avg", 1311.36), ("fraud_rate_pct", 0.21)]),
   ("Thursday", [("count", 35432), ("total_volume", 46620985), ("avg", 1315.79), ("fraud_rate_pct", 0.203)]),
   ("Friday", [("count", 35496), ("total_volume", 46332583), ("avg", 1305.29), ("fraud_rate_pct", 0.172)]),
   ("Saturday", [("count", 35334), ("total_volume", 45867936), ("avg", 1298.12), ("fraud_rate_pct", 0.192)]),
   ("Sunday", [("count", 36003), ("total_volume", 47572544), ("avg", 1321.35), ("fraud_rate_pct", 0.208)])]

def KB_by_month : List (String × Rec) :=
  [("January", [("count", 21221), ("total_volume", 27456691), ("avg", 1293.85), ("fraud_count", 50), ("fraud_rate_pct", 0.236)]),
   ("February", [("count", 19759), ("total_volume", 25826330), ("avg", 1307.07), ("fraud_count", 34), ("fraud_rate_pct", 0.172)]),
   ("March", [("count", 21234), ("total_volume", 27508202), ("avg", 1295.48), ("fraud_count", 47), ("fraud_rate_pct", 0.221)]),
   ("April", [("count", 20536), ("total_volume", 26988791), ("avg", 1314.22), ("fraud_count", 33), ("fraud_rate_pct", 0.161)]),
   ("May", [("count", 21333), ("total_volume", 28024857), ("avg", 1313.69), ("fraud_count", 37), ("fraud_rate_pct", 0.173)]),
   ("June", [("count", 20628), ("total_volume", 27032118), ("avg", 1310.46), ("fraud_count", 30), ("fraud_rate_pct", 0.145)]),
   ("July", [("count", 21207), ("total_volume", 28079905), ("avg", 1324.09), ("fraud_count", 52), ("fraud_rate_pct", 0.245)]),
   ("August", [("count", 21231), ("total_volume", 27845907), ("avg", 1311.57), ("fraud_count", 33), ("fraud_rate_pct", 0.155)]),
   ("September", [("count", 20597), ("total_volume", 27105761), ("avg", 1316.01), ("fraud_count", 42), ("fraud_rate_pct", 0.204)]),
   ("October", [("count", 21252), ("total_volume", 27866829), ("avg", 1311.26), ("fraud_count", 45), ("fraud_rate_pct", 0.212)]),
   ("November", [("count", 20366), ("total_volume", 26892531), ("avg", 1320.46), ("fraud_count", 39), ("fraud_rate_pct", 0.191)]),
   ("December", [("count", 20636), ("total_volume", 27311087), ("avg", 1323.47), ("fraud_count", 38), ("fraud_rate_pct", 0.184)])]

def KB_device_by_category_avg : List (String × List (String × ℚ)) :=
  [("Android", [("Education", 5093.24), ("Entertainment", 413.77), ("Food", 528.78), ("Fuel", 1555.57), ("Grocery", 1169.67), ("Healthcare", 545.1), ("Other", 847.0), ("Shopping", 2592.11), ("Transport", 308.79), ("Utilities", 2355.59)]),
   ("iOS", [("Education", 5116.23), ("Entertainment", 413.07), ("Food", 542.16), ("Fuel", 1554.83), ("Grocery", 1161.03), ("Healthcare", 542.35), ("Other", 847.86), ("Shopping", 2524.61), ("Transport", 303.56), ("Utilities", 2384.35)]),
   ("Web", [("Education", 5026.92), ("Entertainment", 407.67), ("Food", 534.71), ("Fuel", 1554.8), ("Grocery", 1137.12), ("Healthcare", 511.03), ("Other", 878.38), ("Shopping", 2482.87), ("Transport", 314.01), ("Utilities", 2353.66)])]

def KB_weekend : Rec := [("count", 71337), ("avg", 1309.85), ("total_volume", 93440480), ("fraud_rate_pct", 0.2)]

def KB_weekday : Rec := [("count", 178663), ("avg", 1312.52), ("total_volume", 234498529), ("fraud_rate_pct", 0.189)]

def KB_amount_distribution : List (String × ℕ) :=
  [("under_100", 13099), ("100_to_500", 93363), ("500_to_1000", 51135), ("1000_to_5000", 81444), ("5000_to_10000", 9154), ("above_10000", 1805)]

def KB_top10 : List Txn :=
  [⟨42099, "Education", "P2P", "Telangana", "Android", "4G", "FAILED", 0, 1, "Sunday"⟩,
   ⟨41210, "Education", "Bill Payment", "Maharashtra", "Android", "4G", "SUCCESS", 0, 14, "Saturday"⟩,
   ⟨37263, "Education", "Recharge", "Rajasthan", "Android", "WiFi", "SUCCESS", 0, 22, "Tuesday"⟩,
   ⟨34304, "Education", "P2P", "Andhra Pradesh", "Android", "5G", "SUCCESS", 0, 17, "Friday"⟩,
   ⟨33061, "Education", "P2P", "Rajasthan", "Android", "WiFi", "SUCCESS", 0, 23, "Monday"⟩,
   ⟨32741, "Education", "P2P", "West Bengal", "Android", "WiFi", "SUCCESS", 0, 17, "Friday"⟩,
   ⟨30584, "Education", "P2P", "Andhra Pradesh", "Android", "5G", "SUCCESS", 0, 20, "Wednesday"⟩,
   ⟨30351, "Utilities", "P2P", "West Bengal", "iOS", "WiFi", "SUCCESS", 0, 23, "Wednesday"⟩,
   ⟨30112, "Education", "P2M", "Telangana", "Android", "5G", "SUCCESS", 0, 21, "Monday"⟩,
   ⟨29601, "Education", "P2M", "Uttar Pradesh", "Android", "3G", "SUCCESS", 0, 7, "Tuesday"⟩]

def KB_fraud_analysis : FraudAnalysis :=
  ⟨480, 1499.23, 17718, 28, "Grocery", "Maharashtra", "SBI", "Android", 19⟩

/-- The knowledge base: global scalars plus the per-dimension mappings.
(The `meta` block of source identity strings is omitted: nothing reads it.) -/
structure KB where
  total_transactions : ℕ
  total_volume_inr : ℕ
  avg_amount : ℚ
  median_amount : ℚ
  max_amount : ℕ
  min_amount : ℕ
  std_amount : ℚ
  fraud_total : ℕ
  fraud_rate_pct : ℚ
  success_count : ℕ
  failed_count : ℕ
  success_rate_pct : ℚ
  failed_rate_pct : ℚ
  peak_hour : ℕ
  lowest_hour : ℕ
  weekend_txns : ℕ
  weekday_txns : ℕ
  p10_amount : ℚ
  p25_amount : ℚ
  p50_amount : ℚ
  p75_amount : ℚ
  p90_amount : ℚ
  p95_amount : ℚ
  p99_amount : ℚ
  by_category : List (String × Rec)
  by_state : List (String × Rec)
  by_bank : List (String × Rec)
  by_device : List (String × Rec)
  by_network : List (String × Rec)
  by_tx_type : List (String × Rec)
  by_age : List (String × Rec)
  by_hour : List (String × Rec)
  by_day : List (String × Rec)
  by_month : List (String × Rec)
  device_by_category_avg : List (String × List (String × ℚ))
  weekend : Rec
  weekday : Rec
  amount_distribution : List (String × ℕ)
  top10_transactions : List Txn
  fraud_analysis : FraudAnalysis
  deriving Repr, DecidableEq

/-- The embedded knowledge base of the source. -/
def KNOWLEDGE_BASE : KB :=
  { total_transactions := 250000,
    total_volume_inr := 327939009,
    avg_amount := 1311.76,
    median_amount := 629.0,
    max_amount := 42099,
    min_amount := 10,
    std_amount := 1848.06,
    fraud_total := 480,
    fraud_rate_pct := 0.192,
    success_count := 237624,
    failed_count := 12376,
    success_rate_pct := 95.05,
    failed_rate_pct := 4.95,
    peak_hour := 19,
    lowest_hour := 4,
    weekend_txns := 71337,
    weekday_txns := 178663,
    p10_amount := 147.0,
    p25_amount := 288.0,
    p50_amount := 629.0,
    p75_amount := 1596.0,
    p90_amount := 3236.0,
    p95_amount := 4687.0,
    p99_amount := 9003.0,
    by_category := KB_by_category,
    by_state := KB_by_state,
    by_bank := KB_by_bank,
    by_device := KB_by_device,
    by_network := KB_by_network,
    by_tx_type := KB_by_tx_type,
    by_age := KB_by_age,
    by_hour := KB_by_hour,
    by_day := KB_by_day,
    by_month := KB_by_month,
    device_by_category_avg := KB_device_by_category_avg,
    weekend := KB_weekend,
    weekday := KB_weekday,
    amount_distribution := KB_amount_distribution,
    top10_transactions := KB_top10,
    fraud_analysis := KB_fraud_analysis }

/-- `kb.get(dimension_key, {})` for the dimension keys `_rank_by` and the
handlers use. -/
def kbDim (kb : KB) (key : String) : Option (List (String × Rec)) :=
  if key == "by_category" then some kb.by_category
  else if key == "by_state" then some kb.by_state
  else if key == "by_bank" then some kb.by_bank
  else if key == "by_device" then some kb.by_device
  else if key == "by_network" then some kb.by_network
  else if key == "by_tx_type" then some kb.by_tx_type
  else if key == "by_age" then some kb.by_age
  else if key == "by_hour" then some kb.by_hour
  else if key == "by_day" then some kb.by_day
  else if key == "by_month" then some kb.by_month
  else none

/-! ## Response generator (`class ResponseGenerator`, SECTION 3)

Handlers return `Option Response`; `none` models an uncaught Python
exception (`KeyError` / `IndexError` / `ZeroDivisionError` / formatting
`None` or a string with a numeric format spec).  The source also defines
`_volume_report`, but no arm of `generate` ever selects it (dead code);
it is omitted here. -/

/-- The structured response dict (§3 of the spec). -/
structure Response where
  intent : String
  answer : String
  stats : List (String × String)
  pattern : String
  recommendation : String
  confidence : ℕ
  entities_used : List String
  deriving Repr, DecidableEq

/-- `ResponseGenerator._fmt_inr`. -/
def fmt_inr (val : ℚ) : String :=
  if val ≥ 10 ^ 7 then "₹" ++ fmtFixed 2 (val / 10 ^ 7) ++ " Cr"
  else if val ≥ 10 ^ 5 then "₹" ++ fmtFixed 2 (val / 10 ^ 5) ++ " L"
  else if val ≥ 10 ^ 3 then "₹" ++ fmtFixed 1 (val / 10 ^ 3) ++ "K"
  else "₹" ++ fmtFixed 0 val

/-- `ResponseGenerator._fmt_num`. -/
def fmt_num (val : ℚ) : String :=
  if val ≥ 10 ^ 6 then fmtFixed 1 (val / 10 ^ 6) ++ "M"
  else if val ≥ 10 ^ 3 then fmtFixed 1 (val / 10 ^ 3) ++ "K"
  else fmtFixed 0 val

/-- The comparator realized by Python's stable `sorted(key=lambda x: x[1],
reverse=...)`: a stable sort under this total preorder produces exactly
Python's output (ties keep their input order in both directions). -/
def rankLE (reverse : Bool) (a b : String × ℚ) : Bool :=
  if reverse then decide (b.2 ≤ a.2) else decide (a.2 ≤ b.2)

/-- `[(k, v.get(metric, 0)) for k, v in dim.items() if metric in v]`. -/
def rankItems (dim : List (String × Rec)) (metric : String) : List (String × ℚ) :=
  dim.filterMap (fun kv => (recGet kv.2 metric).map (fun v => (kv.1, v)))

/-- `ResponseGenerator._rank_by`. -/
def rank_by (kb : KB) (dimension_key metric : String) (top_n : ℕ) (reverse : Bool) :
    List (String × ℚ) :=
  let dim := (kbDim kb dimension_key).getD []
  ((rankItems dim metric).mergeSort (rankLE reverse)).take top_n

/-- Python `max(it, key=f)`: the first maximal element; `none` on an empty
sequence (`ValueError`). -/
def argmaxBy {α : Type} (f : α → ℚ) : List α → Option α
  | [] => none
  | x :: xs => some (xs.foldl (fun best y => if f best < f y then y else best) x)

/-- Python `min(it, key=f)`: the first minimal element. -/
def argminBy {α : Type} (f : α → ℚ) : List α → Option α
  | [] => none
  | x :: xs => some (xs.foldl (fun best y => if f y < f best then y else best) x)

/-- `max(dim.items(), key=lambda x: x[1][field])`: the key is evaluated on
every entry (`KeyError` when one lacks the field), then the first maximal
entry wins.  Returns `(name, record, field value)`. -/
def argmaxField (dim : List (String × Rec)) (field : String) :
    Option (String × Rec × ℚ) := do
  let keyed ← dim.mapM (fun kv => (recGet kv.2 field).map (fun v => (kv.1, kv.2, v)))
  argmaxBy (fun t => t.2.2) keyed

/-- `min(dim.items(), key=lambda x: x[1][field])`, as `argmaxField`. -/
def argminField (dim : List (String × Rec)) (field : String) :
    Option (String × Rec × ℚ) := do
  let keyed ← dim.mapM (fun kv => (recGet kv.2 field).map (fun v => (kv.1, kv.2, v)))
  argminBy (fun t => t.2.2) keyed

/-- Python `f"{x}"` where `x` may be `None` (prints `None`). -/
def pyStrOpt (v : Option ℚ) : String :=
  match v with
  | some x => pyStr x
  | none => "None"

/-- The answer string of `_overview`. -/
def ovAnswer (kb : KB) (vol : String) : String :=
  "The dataset covers " ++ fmtComma kb.total_transactions ++
  " UPI transactions in 2024 with a total volume of " ++ vol ++
  ". Average transaction is ₹" ++ fmtCommaFixed 2 kb.avg_amount ++
  ", success rate is " ++ pyStr kb.success_rate_pct ++
  "%, and fraud rate is " ++ pyStr kb.fraud_rate_pct ++ "% (" ++
  toString kb.fraud_total ++ " cases)."

/-- The stats mapping of `_overview`. -/
def ovStats (kb : KB) (vol top_cat_by_vol top_state highest_fraud_state : String)
    (hfsRate peakCount : ℚ) : List (String × String) :=
  [("Total Transactions", fmtComma kb.total_transactions),
   ("Total Volume", vol),
   ("Avg Transaction", "₹" ++ fmtCommaFixed 2 kb.avg_amount),
   ("Median Transaction", "₹" ++ fmtCommaFixed 0 kb.median_amount),
   ("Max Transaction", "₹" ++ fmtComma kb.max_amount),
   ("Success Rate", pyStr kb.success_rate_pct ++ "%"),
   ("Failed Transactions", fmtComma kb.failed_count ++ " (" ++ pyStr kb.failed_rate_pct ++ "%)"),
   ("Fraud Cases", toString kb.fraud_total ++ " (" ++ pyStr kb.fraud_rate_pct ++ "%)"),
   ("Peak Hour", toString kb.peak_hour ++ ":00 (" ++ fmt_num peakCount ++ " txns)"),
   ("Top Category by Volume", top_cat_by_vol),
   ("Top State by Volume", top_state),
   ("Highest Fraud State", highest_fraud_state ++ " (" ++ pyStr hfsRate ++ "%)")]

/-- The pattern string of `_overview`. -/
def ovPattern (c19 grocCount shopVol mahaVol : ℚ) : String :=
  "Activity peaks at 7 PM with " ++ fmtCommaQ c19 ++
  " transactions. Grocery dominates in count (" ++ fmtCommaQ grocCount ++
  " txns) but Shopping leads volume (₹" ++ fmtFixed 2 (shopVol / 10 ^ 7) ++
  " Cr). Maharashtra is the busiest state with " ++ fmt_inr mahaVol ++ " volume."

/-- `ResponseGenerator._overview`.  The `max(...)` calls and nested
subscript reads each appear as one `Option` discriminant; any failure
(`ValueError` on an empty mapping, `KeyError` on a missing key) is the
`none` branch. -/
def overviewR (kb : KB) : Option Response :=
  let vol := fmt_inr kb.total_volume_inr
  match (argmaxField kb.by_category "total_volume").map (fun t => t.1),
        (argmaxField kb.by_state "total_volume").map (fun t => t.1),
        argmaxField kb.by_state "fraud_rate_pct",
        (List.lookup (toString kb.peak_hour) kb.by_hour).bind (fun r => recGet r "count"),
        (List.lookup "19" kb.by_hour).bind (fun r => recGet r "count"),
        (List.lookup "Grocery" kb.by_category).bind (fun r => recGet r "count"),
        (List.lookup "Shopping" kb.by_category).bind (fun r => recGet r "total_volume"),
        (List.lookup "Maharashtra" kb.by_state).bind (fun r => recGet r "total_volume") with
  | some top_cat_by_vol, some top_state, some hfs, some peakCount, some c19,
      some grocCount, some shopVol, some mahaVol =>
    match (List.lookup hfs.1 kb.by_state).bind (fun r => recGet r "fraud_rate_pct") with
    | some hfsRate =>
      some { intent := "OVERVIEW",
             answer := ovAnswer kb vol,
             stats := ovStats kb vol top_cat_by_vol top_state hfs.1 hfsRate peakCount,
             pattern := ovPattern c19 grocCount shopVol mahaVol,
             recommendation := "Focus fraud prevention on Karnataka and Rajasthan (highest fraud states) and Recharge transactions (0.239% fraud rate). Evening hours (6–8 PM) represent the highest-value window — prioritise uptime and support during this period.",
             confidence := 99,
             entities_used := ["all"] }
    | none => none
  | _, _, _, _, _, _, _, _ => none

/-- The `if entities[...]: dim_key, entity_name, section = ...` chain of
`_fraud_report`: the first non-empty entity list wins; `section` is the
`dict.get` lookup (absent when the name is not a key of the dimension). -/
def pickFraudEntity (kb : KB) (e : Entities) : Option (String × String × Option Rec) :=
  if !e.categories.isEmpty then
    some ("by_category", e.categories.headD "", List.lookup (e.categories.headD "") kb.by_category)
  else if !e.states.isEmpty then
    some ("by_state", e.states.headD "", List.lookup (e.states.headD "") kb.by_state)
  else if !e.banks.isEmpty then
    some ("by_bank", e.banks.headD "", List.lookup (e.banks.headD "") kb.by_bank)
  else if !e.devices.isEmpty then
    some ("by_device", e.devices.headD "", List.lookup (e.devices.headD "") kb.by_device)
  else if !e.networks.isEmpty then
    some ("by_network", e.networks.headD "", List.lookup (e.networks.headD "") kb.by_network)
  else if !e.tx_types.isEmpty then
    some ("by_tx_type", e.tx_types.headD "", List.lookup (e.tx_types.headD "") kb.by_tx_type)
  else if !e.ages.isEmpty then
    some ("by_age", e.ages.headD "", List.lookup (e.ages.headD "") kb.by_age)
  else none

/-- The single-entity branch of `_fraud_report` (`if section and
entity_name:`).  The relative difference `(rate - overall) / overall * 100`
is computed with no guard: a zero overall rate is a `ZeroDivisionError`,
modelled as `none`. -/
def fraudSingle (kb : KB) (entity_name : String) (sec : Rec) : Option Response := do
  let rate := (recGet sec "fraud_rate_pct").getD 0
  let overall := kb.fraud_rate_pct
  if overall = 0 then none
  else
    let diff_pct := roundTo 1 ((rate - overall) / overall * 100)
    let direction := if rate > overall then "above" else "below"
    let count ← recGet sec "count"
    some {
      intent := "FRAUD",
      answer := entity_name ++ " has a fraud rate of " ++ pyStr rate ++
        "%, which is " ++ pyStr |diff_pct| ++ "% " ++ direction ++
        " the overall average of " ++ pyStr overall ++ "%.",
      stats := [
        ("Entity", entity_name),
        ("Fraud Rate", pyStr rate ++ "%"),
        ("Overall Average", pyStr overall ++ "%"),
        ("Relative Difference", (if diff_pct > 0 then "+" else "") ++ pyStr diff_pct ++ "%"),
        ("Transaction Count", fmtCommaQ count)],
      pattern := (if rate > overall then "High" else "Low") ++ " fraud rate in " ++
        entity_name ++ ". Overall fraud count in dataset: " ++ toString kb.fraud_total ++
        " out of " ++ fmtComma kb.total_transactions ++ ".",
      recommendation := if rate > overall then
          "Increase monitoring and add OTP / biometric verification for " ++
            entity_name ++ " transactions."
        else entity_name ++ " is relatively safe — maintain current controls.",
      confidence := 95,
      entities_used := [entity_name] }

/-- The no-entity leaderboard branch of `_fraud_report`. -/
def fraudLeaderboard (kb : KB) : Option Response := do
  let fraud_by_state := rank_by kb "by_state" "fraud_rate_pct" 5 true
  let fraud_by_cat := rank_by kb "by_category" "fraud_rate_pct" 5 true
  let fraud_by_bank := rank_by kb "by_bank" "fraud_rate_pct" 5 true
  let fraud_by_network := rank_by kb "by_network" "fraud_rate_pct" 5 true
  let fraud_by_type := rank_by kb "by_tx_type" "fraud_rate_pct" 5 true
  let fraud_by_age := rank_by kb "by_age" "fraud_rate_pct" 5 true
  let top_state ← fraud_by_state.head?
  let top_cat ← fraud_by_cat.head?
  let top_bank ← fraud_by_bank.head?
  let top_net ← fraud_by_network.head?
  let top_type ← fraud_by_type.head?
  let top_age ← fraud_by_age.head?
  let safe_state ← fraud_by_state.getLast?
  let safest_net ← (rank_by kb "by_network" "fraud_rate_pct" 5 false).head?
  some {
    intent := "FRAUD",
    answer := "Overall fraud rate is " ++ pyStr kb.fraud_rate_pct ++ "% (" ++
      toString kb.fraud_total ++ " cases). Highest risk: " ++ top_state.1 ++
      " state (" ++ pyStr top_state.2 ++ "%), " ++ top_cat.1 ++ " category (" ++
      pyStr top_cat.2 ++ "%), " ++ top_bank.1 ++ " bank (" ++ pyStr top_bank.2 ++
      "%), " ++ top_net.1 ++ " network (" ++ pyStr top_net.2 ++ "%).",
    stats := [
      ("Total Fraud Cases", toString kb.fraud_total),
      ("Overall Rate", pyStr kb.fraud_rate_pct ++ "%"),
      ("Riskiest State", top_state.1 ++ " (" ++ pyStr top_state.2 ++ "%)"),
      ("Riskiest Category", top_cat.1 ++ " (" ++ pyStr top_cat.2 ++ "%)"),
      ("Riskiest Bank", top_bank.1 ++ " (" ++ pyStr top_bank.2 ++ "%)"),
      ("Riskiest Network", top_net.1 ++ " (" ++ pyStr top_net.2 ++ "%)"),
      ("Riskiest Tx Type", top_type.1 ++ " (" ++ pyStr top_type.2 ++ "%)"),
      ("Riskiest Age Group", top_age.1 ++ " (" ++ pyStr top_age.2 ++ "%)"),
      ("Safest State", safe_state.1 ++ " (" ++ pyStr safe_state.2 ++ "%)"),
      ("Safest Network", safest_net.1 ++ " (" ++ pyStr safest_net.2 ++ "%)"),
      ("Fraud Avg Amount", "₹" ++ pyStr kb.fraud_analysis.avg_amount),
      ("Fraud Max Amount", "₹" ++ toString kb.fraud_analysis.max_amount)],
    pattern := "WiFi network anomaly: 0.235% vs 0.184% on 5G (28% relative increase). Recharge transactions most vulnerable (0.239%). Youth (18-25) and seniors (56+) show elevated fraud exposure. 3 AM has the highest hourly fraud rate (0.304%).",
    recommendation := "Priority actions: (1) Mandatory biometric for Recharge + WiFi transactions. (2) Karnataka/Rajasthan need region-specific fraud alerts. (3) Kotak Bank users require enhanced OTP flows. (4) Night-time (1-3 AM) monitoring needs strengthening.",
    confidence := 98,
    entities_used := ["all"] }

/-- `ResponseGenerator._fraud_report`. -/
def fraud_report (kb : KB) (e : Entities) : Option Response :=
  match pickFraudEntity kb e with
  | some (_, entity_name, some sec) =>
    if !sec.isEmpty && entity_name ≠ "" then fraudSingle kb entity_name sec
    else fraudLeaderboard kb
  | _ => fraudLeaderboard kb

/-- `ResponseGenerator._failure_report`. -/
def failure_report (kb : KB) (e : Entities) : Option Response := do
  let fail_by_cat := rank_by kb "by_category" "fail_rate_pct" 5 true
  let fail_by_dev := rank_by kb "by_device" "fail_rate_pct" 5 true
  let fail_by_type := rank_by kb "by_tx_type" "fail_rate_pct" 5 true
  if !e.categories.isEmpty then do
    let cat := e.categories.headD ""
    let d := (List.lookup cat kb.by_category).getD []
    let cnt ← recGet d "count"
    some {
      intent := "FAILURE",
      answer := cat ++ " has a failure rate of " ++
        (match recGet d "fail_rate_pct" with | some v => pyStr v | none => "N/A") ++
        "% out of " ++ fmtCommaQ ((recGet d "count").getD 0) ++ " transactions.",
      stats := [
        ("Category", cat),
        ("Failure Rate", pyStrOpt (recGet d "fail_rate_pct") ++ "%"),
        ("Count", fmtCommaQ cnt)],
      pattern := "Overall failure rate is " ++ pyStr kb.failed_rate_pct ++ "%. " ++
        cat ++ " is " ++
        (if (recGet d "fail_rate_pct").getD 0 > kb.failed_rate_pct then "above" else "below") ++
        " average.",
      recommendation := "Investigate payment gateway issues specific to " ++ cat ++
        " merchant integrations.",
      confidence := 93,
      entities_used := [cat] }
  else do
    let c1 ← fail_by_cat.head?
    let dev1 ← fail_by_dev.head?
    let ty1 ← fail_by_type.head?
    some {
      intent := "FAILURE",
      answer := "Overall failure rate is " ++ pyStr kb.failed_rate_pct ++ "% (" ++
        fmtComma kb.failed_count ++ " transactions). Education has the highest at " ++
        pyStr c1.2 ++ "%.",
      stats := [
          ("Total Failed", fmtComma kb.failed_count),
          ("Failure Rate", pyStr kb.failed_rate_pct ++ "%")] ++
        (fail_by_cat.take 3).enum.map (fun p =>
          ("Fail #" ++ toString (p.1 + 1), p.2.1 ++ " (" ++ pyStr p.2.2 ++ "%)")) ++
        [("Worst Device", dev1.1 ++ " (" ++ pyStr dev1.2 ++ "%)"),
         ("Worst Tx Type", ty1.1 ++ " (" ++ pyStr ty1.2 ++ "%)")],
      pattern := "Education has consistently high failure + average amounts, suggesting bank timeout issues on large-value UPI transactions.",
      recommendation := "Implement retry logic for Education and Shopping categories. Investigate Web browser UPI flows (highest fail rate 5.15%).",
      confidence := 95,
      entities_used := ["all"] }

/-- Python `x or y` on an optional numeric lookup: `None` and `0` are both
falsy, so a stored zero also falls through to `y`. -/
def pyOr (a b : Option ℚ) : Option ℚ :=
  match a with
  | some x => if x = 0 then b else some x
  | none => b

/-- The `for dim_key, ent_list in [...]` scan of `_amount_report`: the
first non-empty entity list wins, in the fixed dimension order. -/
def firstAmountEntity (e : Entities) : Option (String × String) :=
  if !e.categories.isEmpty then some ("by_category", e.categories.headD "")
  else if !e.states.isEmpty then some ("by_state", e.states.headD "")
  else if !e.banks.isEmpty then some ("by_bank", e.banks.headD "")
  else if !e.devices.isEmpty then some ("by_device", e.devices.headD "")
  else if !e.networks.isEmpty then some ("by_network", e.networks.headD "")
  else if !e.tx_types.isEmpty then some ("by_tx_type", e.tx_types.headD "")
  else if !e.ages.isEmpty then some ("by_age", e.ages.headD "")
  else none

/-- `val = section.get(metric) or section.get("avg")` of `_amount_report`. -/
def amountValue (sec : Rec) (metric : String) : Option ℚ :=
  pyOr (recGet sec metric) (recGet sec "avg")

/-- `metric = entities.get("metric") or "avg"` (an absent or empty metric
falls through to `"avg"`). -/
def amountMetric (e : Entities) : String :=
  match e.metric with
  | some m => if m = "" then "avg" else m
  | none => "avg"

/-- `ResponseGenerator._amount_report`. -/
def amount_report (kb : KB) (e : Entities) (raw_query : String) : Option Response := do
  let metric := amountMetric e
  let q := lowerStr raw_query
  match firstAmountEntity e with
  | some (dim_key, name) => do
    let sec := (List.lookup name ((kbDim kb dim_key).getD [])).getD []
    let val ← amountValue sec metric
    let cnt ← recGet sec "count"
    some {
      intent := "AMOUNT",
      answer := "The " ++ replaceSub metric "_" " " ++ " transaction amount for " ++
        name ++ " is " ++ fmt_inr val ++ ".",
      stats := [
        ("Entity", name),
        ("Metric", metric),
        ("Value", fmt_inr val),
        ("Count", fmtCommaQ cnt),
        ("Total Volume", fmt_inr ((recGet sec "total_volume").getD 0))],
      pattern := "Overall dataset avg is ₹" ++ fmtCommaQ kb.avg_amount ++ ". " ++
        name ++ " is " ++ (if val > kb.avg_amount then "above" else "below") ++ " average.",
      recommendation := if val > kb.avg_amount * 1.5 then
          "Monitor high-value " ++ name ++ " transactions closely."
        else "Standard monitoring sufficient for " ++ name ++ ".",
      confidence := 96,
      entities_used := [name] }
  | none =>
    -- `re.search(r"top\s*10|largest|biggest|highest\s+transaction", q)`
    if seqSearch q "top" 0 "10" || anySub q ["largest", "biggest"] ||
        seqSearch q "highest" 1 "transaction" then do
      let t0 ← kb.top10_transactions.head?
      let rows := String.intercalate "\n" (kb.top10_transactions.enum.map (fun p =>
        "  #" ++ toString (p.1 + 1) ++ "  ₹" ++ fmtComma p.2.amount ++ "  |  " ++
        p.2.category ++ "  |  " ++ p.2.state ++ "  |  " ++ p.2.status))
      some {
        intent := "AMOUNT",
        answer := "The highest individual transaction is ₹" ++ fmtComma t0.amount ++
          " (Education, Telangana, FAILED).\n\nTop 10:\n" ++ rows,
        stats := [
          ("Max", "₹" ++ fmtComma kb.max_amount),
          ("Min", "₹" ++ toString kb.min_amount),
          ("Median", "₹" ++ fmtCommaQ kb.median_amount),
          ("p90", "₹" ++ fmtCommaQ kb.p90_amount),
          ("p99", "₹" ++ fmtCommaQ kb.p99_amount)],
        pattern := "8 of top 10 transactions are in Education category — consistent with high tuition fee payments via UPI.",
        recommendation := "Add transaction-level review for any single UPI payment above ₹25,000.",
        confidence := 99,
        entities_used := ["top10"] }
    else if anySub q ["distribut", "bucket", "range", "bracket"] then do
      let d := kb.amount_distribution
      let total := (d.map Prod.snd).sum
      if total = 0 then none
      else do
        let above ← List.lookup "above_10000" d
        some {
          intent := "AMOUNT",
          answer := "Most transactions (37.3%) are in the ₹100–500 range. Only " ++
            fmtComma above ++ " transactions exceed ₹10,000.",
          stats := d.map (fun kv =>
            (replaceSub kv.1 "_" " → ₹",
             fmtComma kv.2 ++ " (" ++ fmtFixed 1 ((kv.2 : ℚ) / (total : ℚ) * 100) ++ "%)")),
          pattern := "The distribution is heavily right-skewed — median ₹629 vs mean ₹1,312 — driven by a few large Education/Shopping transactions.",
          recommendation := "Design tiered UX: instant approval for <₹500, OTP for ₹500-5K, biometric for >₹5K.",
          confidence := 97,
          entities_used := ["distribution"] }
    else
      some {
        intent := "AMOUNT",
        answer := "Average transaction amount is ₹" ++ fmtCommaQ kb.avg_amount ++
          ". Median is ₹" ++ fmtCommaQ kb.median_amount ++ ", max is ₹" ++
          fmtComma kb.max_amount ++ ".",
        stats := [
          ("Mean", "₹" ++ fmtCommaQ kb.avg_amount),
          ("Median", "₹" ++ fmtCommaQ kb.median_amount),
          ("Max", "₹" ++ fmtComma kb.max_amount),
          ("Min", "₹" ++ fmtComma kb.min_amount),
          ("Std Dev", "₹" ++ fmtCommaQ kb.std_amount),
          ("p90", "₹" ++ fmtCommaQ kb.p90_amount),
          ("p95", "₹" ++ fmtCommaQ kb.p95_amount),
          ("p99", "₹" ++ fmtCommaQ kb.p99_amount)],
        pattern := "High standard deviation (₹1,848) indicates a wide range. The gap between median (₹629) and mean (₹1,312) signals outlier high-value transactions.",
        recommendation := "Segment users into low-value (<₹500) and high-value (>₹5K) cohorts for tailored experiences and risk controls.",
        confidence := 95,
        entities_used := ["global"] }

/-- `ResponseGenerator._trend_report`. -/
def trend_report (kb : KB) (e : Entities) (raw_query : String) : Option Response := do
  let q := lowerStr raw_query
  -- `re.search(r"month|jan|feb|mar|apr|may|jun|jul|aug|sep|oct|nov|dec", q)`
  if anySub q ["month", "jan", "feb", "mar", "apr", "may", "jun", "jul", "aug",
      "sep", "oct", "nov", "dec"] || !e.months.isEmpty then do
    let _top_fraud_month ← (argmaxField kb.by_month "fraud_rate_pct").map (fun t => t.1)
    let tvm ← argmaxField kb.by_month "total_volume"
    let top_vol_month := tvm.1
    let july ← List.lookup "July" kb.by_month
    let julyRate ← recGet july "fraud_rate_pct"
    let tvmRec ← List.lookup top_vol_month kb.by_month
    let tvmVol ← recGet tvmRec "total_volume"
    let mstats ← kb.by_month.mapM (fun kv => do
      let tv ← recGet kv.2 "total_volume"
      let fr ← recGet kv.2 "fraud_rate_pct"
      pure (kv.1, fmt_inr tv ++ " | fraud " ++ pyStr fr ++ "%"))
    some {
      intent := "TREND",
      answer := "Volume is stable across months (~₹26-28Cr/month). July had the highest fraud rate (" ++
        pyStr julyRate ++ "%) and " ++ top_vol_month ++ " had the highest volume (" ++
        fmt_inr tvmVol ++ ").",
      stats := mstats,
      pattern := "Volume is consistent year-round with no major seasonal spike. Fraud peaks in July (0.245%) and drops in June (0.145%) — possibly linked to tax/admission season anomalies.",
      recommendation := "Run fraud alert campaigns in Q1 (Jan-Mar) and July when fraud rates are highest.",
      confidence := 93,
      entities_used := ["by_month"] }
  else if anySub q ["hour", "peak", "time", "when", "busiest", "am", "pm"] then do
    let peak ← argmaxField kb.by_hour "count"
    let quiet ← argminField kb.by_hour "count"
    let hfh ← argmaxField kb.by_hour "fraud_rate_pct"
    let hstats ← kb.by_hour.mapM (fun kv => do
      let c ← recGet kv.2 "count"
      let fr ← recGet kv.2 "fraud_rate_pct"
      pure (kv.1 ++ ":00", fmtCommaQ c ++ " txns | fraud " ++ pyStr fr ++ "%"))
    some {
      intent := "TREND",
      answer := "Peak activity is at " ++ peak.1 ++ ":00 (" ++ fmtCommaQ peak.2.2 ++
        " transactions). Quietest at " ++ quiet.1 ++ ":00. Highest fraud hour: " ++
        hfh.1 ++ ":00 (" ++ pyStr hfh.2.2 ++ "%).",
      stats := hstats,
      pattern := "Evening surge from 17:00–19:00 captures the highest volume. Late night (1-3 AM) has small volume but very high fraud rates (0.267–0.304%).",
      recommendation := "Scale server capacity for 17:00–21:00. Deploy enhanced fraud scoring for 1–4 AM transactions.",
      confidence := 97,
      entities_used := ["by_hour"] }
  else if anySub q ["day", "week", "monday", "tuesday", "weekend", "weekday"] then do
    let top ← argmaxField kb.by_day "count"
    let dstats ← kb.by_day.mapM (fun kv => do
      let c ← recGet kv.2 "count"
      let fr ← recGet kv.2 "fraud_rate_pct"
      pure (kv.1, fmtCommaQ c ++ " txns | fraud " ++ pyStr fr ++ "%"))
    let wkndAvg ← recGet kb.weekend "avg"
    let wkndFr ← recGet kb.weekend "fraud_rate_pct"
    let wkdAvg ← recGet kb.weekday "avg"
    let wkdFr ← recGet kb.weekday "fraud_rate_pct"
    some {
      intent := "TREND",
      answer := "Transaction volume is consistent across days. " ++ top.1 ++
        " has the most transactions. Weekdays average slightly more volume than weekends.",
      stats := dstats ++ [
        ("Weekend avg", "₹" ++ pyStr wkndAvg ++ " | fraud " ++ pyStr wkndFr ++ "%"),
        ("Weekday avg", "₹" ++ pyStr wkdAvg ++ " | fraud " ++ pyStr wkdFr ++ "%")],
      pattern := "Sundays have slightly higher fraud (0.208%). Tuesdays are the safest day (0.163%). Weekend volume is 28.5% of total.",
      recommendation := "Run targeted promotions on low-fraud days (Tuesday, Friday) to grow quality volume.",
      confidence := 90,
      entities_used := ["by_day"] }
  else overviewR kb

/-- Python `str.title()` (ASCII): uppercase a letter after a non-letter,
lowercase the rest. -/
def titleCaseGo (prevAlpha : Bool) : List Char → List Char
  | [] => []
  | c :: t =>
    (if c.isAlpha && !prevAlpha then c.toUpper
     else if c.isAlpha then c.toLower else c) :: titleCaseGo c.isAlpha t

/-- Python `str.title()` (ASCII): uppercase a letter after a non-letter,
lowercase the rest. -/
def titleCase (s : String) : String :=
  String.mk (titleCaseGo false s.data)

/-- The per-entry value formatting lambda of `_rank_report`. -/
def rankFmtVal (metric : String) (v : ℚ) : String :=
  if strHas metric "rate" then pyStr v ++ "%"
  else if strHas metric "volume" then fmt_inr v
  else if strHas metric "avg" then "₹" ++ fmtCommaFixed 0 v
  else fmtCommaQ v

/-- `ResponseGenerator._rank_report` (its `entities` parameter is never
read by the source either: every cue comes from the raw query text). -/
def rank_report (kb : KB) (_e : Entities) (raw_query : String) : Option Response := do
  let q := lowerStr raw_query
  let is_fraud := strHas q "fraud"
  let is_vol := anySub q ["volume", "total", "sum"]
  let is_count := anySub q ["count", "number", "transactions"]
  let _is_amount := anySub q ["amount", "avg", "average", "spend"]
  let reverse := !(anySub q ["lowest", "safest", "least", "worst performance", "minimum"])
  let metric := if is_fraud then "fraud_rate_pct"
    else if is_vol then "total_volume"
    else if is_count then "count"
    else "avg"
  let rd : List (String × ℚ) × String :=
    if anySub q ["state", "region", "city"] then
      (rank_by kb "by_state" metric 10 reverse, "state")
    else if anySub q ["categor", "merchant"] then
      (rank_by kb "by_category" metric 10 reverse, "merchant category")
    else if anySub q ["bank"] then
      (rank_by kb "by_bank" metric 8 reverse, "bank")
    else if anySub q ["device", "android", "ios", "web"] then
      (rank_by kb "by_device" metric 3 reverse, "device")
    else if anySub q ["network", "4g", "5g", "wifi", "3g"] then
      (rank_by kb "by_network" metric 4 reverse, "network")
    else if anySub q ["age", "group", "youth", "senior"] then
      (rank_by kb "by_age" metric 5 reverse, "age group")
    else if anySub q ["type", "p2p", "p2m", "recharge", "bill"] then
      (rank_by kb "by_tx_type" metric 4 reverse, "transaction type")
    else (rank_by kb "by_category" metric 10 reverse, "merchant category")
  let ranked := rd.1
  let dim := rd.2
  let label := titleCase (replaceSub (replaceSub metric "_pct" "") "_" " ")
  let _unit := if strHas metric "rate" then "%"
    else if strHas metric "count" then "" else ""
  let rows := String.intercalate "\n" (ranked.enum.map (fun p =>
    "  #" ++ toString (p.1 + 1) ++ "  " ++ p.2.1 ++ "  —  " ++ rankFmtVal metric p.2.2))
  let t ← ranked.head?
  some {
    intent := "RANK",
    answer := "Ranking by " ++ label ++ " across " ++ dim ++ ":\n" ++ rows,
    stats := ranked.enum.map (fun p =>
      ("#" ++ toString (p.1 + 1) ++ " " ++ p.2.1, rankFmtVal metric p.2.2)),
    pattern := t.1 ++ " leads with " ++ rankFmtVal metric t.2 ++ " — " ++
      (if ranked.length > 1 && t.2 > ((ranked.get? 1).map Prod.snd).getD 0 * 1.1 then
        "significantly above" else "slightly above") ++
      " #2 (" ++ (if ranked.length > 1 then ((ranked.get? 1).map Prod.fst).getD "N/A"
        else "N/A") ++ ").",
    recommendation := "Focus strategy on " ++ t.1 ++ " for " ++
      (if is_fraud then "fraud mitigation" else "growth opportunities") ++ ".",
    confidence := 94,
    entities_used := [dim] }

/-- `ResponseGenerator._compare_report`. -/
def compare_report (kb : KB) (e : Entities) (raw_query : String) : Option Response := do
  let q := lowerStr raw_query
  if anySub q ["device", "android", "ios", "web"] then do
    let dstats ← kb.by_device.mapM (fun kv => do
      let avg ← recGet kv.2 "avg"
      let fr ← recGet kv.2 "fraud_rate_pct"
      let fl ← recGet kv.2 "fail_rate_pct"
      let c ← recGet kv.2 "count"
      pure (kv.1, "avg ₹" ++ pyStr avg ++ " | fraud " ++ pyStr fr ++ "% | fail " ++
        pyStr fl ++ "% | count " ++ fmtCommaQ c))
    some {
      intent := "COMPARE",
      answer := "Device comparison: Android leads in volume (₹24.7Cr), iOS has the lowest fraud rate (0.181%), Web has the highest failure rate (5.15%).",
      stats := dstats,
      pattern := "iOS users transact slightly less frequently but have better fraud and failure outcomes. Web is the least reliable channel.",
      recommendation := "Promote iOS app for premium/high-value users. Investigate Web UPI flow for reliability issues.",
      confidence := 96,
      entities_used := kb.by_device.map Prod.fst }
  else if anySub q ["p2p", "p2m", "recharge", "bill", "payment", "type"] then do
    let tstats ← kb.by_tx_type.mapM (fun kv => do
      let c ← recGet kv.2 "count"
      let avg ← recGet kv.2 "avg"
      let fr ← recGet kv.2 "fraud_rate_pct"
      pure (kv.1, "count " ++ fmtCommaQ c ++ " | avg ₹" ++ pyStr avg ++ " | fraud " ++
        pyStr fr ++ "%"))
    some {
      intent := "COMPARE",
      answer := "P2P dominates in count (112,445) and volume (₹14.7Cr). Recharge has the highest fraud rate (0.239%).",
      stats := tstats,
      pattern := "Recharge is the smallest but most fraud-prone category. P2M has the highest average amount (₹1,320).",
      recommendation := "Add OTP step for all Recharge transactions. Monitor P2P high-value transactions (avg ₹1,309 with highest count).",
      confidence := 95,
      entities_used := kb.by_tx_type.map Prod.fst }
  else if anySub q ["network", "4g", "5g", "wifi", "3g"] then do
    let nstats ← kb.by_network.mapM (fun kv => do
      let c ← recGet kv.2 "count"
      let avg ← recGet kv.2 "avg"
      let fr ← recGet kv.2 "fraud_rate_pct"
      pure (kv.1, "count " ++ fmtCommaQ c ++ " | avg ₹" ++ pyStr avg ++ " | fraud " ++
        pyStr fr ++ "%"))
    some {
      intent := "COMPARE",
      answer := "4G dominates (149,813 txns). WiFi has the highest fraud rate (0.235%), 5G has the lowest (0.184%).",
      stats := nstats,
      pattern := "WiFi fraud anomaly (0.235%) likely caused by public hotspot usage. 5G users show best security behaviour.",
      recommendation := "Add mandatory re-authentication for transactions initiated over public WiFi.",
      confidence := 96,
      entities_used := kb.by_network.map Prod.fst }
  else rank_report kb e raw_query

/-- `ResponseGenerator._entity_deep_dive`. -/
def entity_deep_dive (kb : KB) (e : Entities) : Option Response := do
  if !e.categories.isEmpty then do
    let cat := e.categories.headD ""
    let d := (List.lookup cat kb.by_category).getD []
    let devAvg : String → Option ℚ := fun dev =>
      (List.lookup dev kb.device_by_category_avg).bind (fun m => List.lookup cat m)
    let mx ← recGet d "max"
    some {
      intent := "ENTITY_DEEP_DIVE",
      answer := "Deep dive into " ++ cat ++ ": " ++ fmtCommaQ ((recGet d "count").getD 0) ++
        " transactions, avg ₹" ++ pyStrOpt (recGet d "avg") ++ ", volume " ++
        fmt_inr ((recGet d "total_volume").getD 0) ++ ", fraud " ++
        pyStrOpt (recGet d "fraud_rate_pct") ++ "%, failure " ++
        pyStrOpt (recGet d "fail_rate_pct") ++ "%.",
      stats := [
        ("Count", fmtCommaQ ((recGet d "count").getD 0)),
        ("Total Volume", fmt_inr ((recGet d "total_volume").getD 0)),
        ("Avg Amount", "₹" ++ pyStrOpt (recGet d "avg")),
        ("Median", "₹" ++ pyStrOpt (recGet d "median")),
        ("Max", "₹" ++ fmtCommaQ mx),
        ("Min", "₹" ++ pyStrOpt (recGet d "min")),
        ("Fraud Rate", pyStrOpt (recGet d "fraud_rate_pct") ++ "%"),
        ("Fail Rate", pyStrOpt (recGet d "fail_rate_pct") ++ "%"),
        ("Android Avg", "₹" ++ pyStrOpt (devAvg "Android")),
        ("iOS Avg", "₹" ++ pyStrOpt (devAvg "iOS")),
        ("Web Avg", "₹" ++ pyStrOpt (devAvg "Web"))],
      pattern := cat ++ " avg (₹" ++ pyStrOpt (recGet d "avg") ++ ") is " ++
        (if (recGet d "avg").getD 0 > kb.avg_amount * 1.5 then "well above"
         else if (recGet d "avg").getD 0 > kb.avg_amount then "above" else "below") ++
        " the overall avg of ₹" ++ pyStr kb.avg_amount ++ ".",
      recommendation := (if (recGet d "avg").getD 0 > 2000 then
          "High-value alert thresholds recommended for " ++ cat
        else "Standard controls adequate for " ++ cat) ++ ".",
      confidence := 96,
      entities_used := [cat] }
  else if !e.states.isEmpty then do
    let state := e.states.headD ""
    let d := (List.lookup state kb.by_state).getD []
    some {
      intent := "ENTITY_DEEP_DIVE",
      answer := state ++ ": " ++ fmtCommaQ ((recGet d "count").getD 0) ++
        " transactions, avg ₹" ++ pyStrOpt (recGet d "avg") ++ ", volume " ++
        fmt_inr ((recGet d "total_volume").getD 0) ++ ", fraud rate " ++
        pyStrOpt (recGet d "fraud_rate_pct") ++ "%.",
      stats := [
        ("State", state),
        ("Transaction Count", fmtCommaQ ((recGet d "count").getD 0)),
        ("Total Volume", fmt_inr ((recGet d "total_volume").getD 0)),
        ("Avg Amount", "₹" ++ pyStrOpt (recGet d "avg")),
        ("Fraud Rate", pyStrOpt (recGet d "fraud_rate_pct") ++ "%"),
        ("National Avg Fraud", pyStr kb.fraud_rate_pct ++ "%")],
      pattern := state ++ " is " ++
        (if (recGet d "fraud_rate_pct").getD 0 > kb.fraud_rate_pct then
          "a high-fraud zone" else "below national fraud average") ++ ".",
      recommendation := if (recGet d "fraud_rate_pct").getD 0 > 0.2 then
          "Deploy additional fraud detection agents in " ++ state
        else state ++ " is relatively low-risk — standard monitoring adequate.",
      confidence := 95,
      entities_used := [state] }
  else overviewR kb

/-! ### Dispatch (`ResponseGenerator.generate`) -/

/-- The eight handlers `generate` can select. -/
inductive Handler
  | overviewH | fraudH | failureH | trendH | rankH | compareH | amountH | deepDiveH
  deriving Repr, DecidableEq

/-- `any(entities[k] for k in ["categories","states","banks","devices",
"networks","tx_types","ages","months","days"])` — the overview guard;
note that `hours` is not in this key list. -/
def anyEntity9 (e : Entities) : Bool :=
  !e.categories.isEmpty || !e.states.isEmpty || !e.banks.isEmpty ||
  !e.devices.isEmpty || !e.networks.isEmpty || !e.tx_types.isEmpty ||
  !e.ages.isEmpty || !e.months.isEmpty || !e.days.isEmpty

/-- `any(entities[k] for k in ["categories","states","banks","devices",
"networks","tx_types","ages"])` — the deep-dive guard; note that
`months`, `days` and `hours` are not in this key list. -/
def anyEntity7 (e : Entities) : Bool :=
  !e.categories.isEmpty || !e.states.isEmpty || !e.banks.isEmpty ||
  !e.devices.isEmpty || !e.networks.isEmpty || !e.tx_types.isEmpty ||
  !e.ages.isEmpty

/-- The handler-selection chain of `ResponseGenerator.generate`, in source
order. -/
def dispatch (intents : List String) (e : Entities) : Handler :=
  if intents.contains "OVERVIEW" && !anyEntity9 e then .overviewH
  else if intents.contains "FRAUD" then .fraudH
  else if intents.contains "FAILURE" then .failureH
  else if intents.contains "TREND" then .trendH
  else if intents.contains "RANK" then .rankH
  else if intents.contains "COMPARE" then .compareH
  else if intents.contains "AMOUNT" || intents.contains "VOLUME" ||
    intents.contains "COUNT" then .amountH
  else if anyEntity7 e then .deepDiveH
  else .overviewH

/-- `ResponseGenerator.generate`: run the selected handler. -/
def generate (kb : KB) (intents : List String) (e : Entities) (raw_query : String) :
    Option Response :=
  match dispatch intents e with
  | .overviewH => overviewR kb
  | .fraudH => fraud_report kb e
  | .failureH => failure_report kb e
  | .trendH => trend_report kb e raw_query
  | .rankH => rank_report kb e raw_query
  | .compareH => compare_report kb e raw_query
  | .amountH => amount_report kb e raw_query
  | .deepDiveH => entity_deep_dive kb e

/-! ## The model (`class InsightXModel`) -/

/-- One `self._history` entry of `InsightXModel.query`. -/
structure HistEntry where
  question : String
  intents : List String
  response : Response
  deriving Repr, DecidableEq

/-- The mutable state of an `InsightXModel`: the active knowledge base and
the conversation history. -/
structure Model where
  kb : KB
  history : List HistEntry
  deriving Repr, DecidableEq

/-- `InsightXModel.query` with the object state threaded explicitly:
classify, extract, generate, append to `_history`, return the response.
A `none` response is an uncaught exception and propagates before the
history append runs. -/
def query (m : Model) (question : String) : Option Response × Model :=
  let intents := classify_intent question
  let entities := extract_entities question
  match generate m.kb intents entities question with
  | some r => (some r, { m with history := m.history ++ [⟨question, intents, r⟩] })
  | none => (none, m)

/-- A fresh `InsightXModel()` (no csv path: embedded KB, empty history). -/
def initModel : Model := { kb := KNOWLEDGE_BASE, history := [] }

/-! ## Claim-side definitions -/

/-- A knowledge base whose overall fraud rate is zero, as `_train_from_csv`
produces from a fraud-free record set (`fraud_rate_pct = round(mean*100,3)
= 0.0`); the per-dimension records are unchanged. -/
def kbZeroFraud : KB := { KNOWLEDGE_BASE with fraud_rate_pct := 0 }

/-- Whether any of the ten entity lists of the extraction is non-empty:
the claim's "no entities are mentioned" / "any entity is present" read
over every entity list, `months`, `days` and `hours` included. -/
def anyEntityAll (e : Entities) : Bool :=
  !e.categories.isEmpty || !e.states.isEmpty || !e.banks.isEmpty ||
  !e.devices.isEmpty || !e.networks.isEmpty || !e.tx_types.isEmpty ||
  !e.ages.isEmpty || !e.months.isEmpty || !e.days.isEmpty || !e.hours.isEmpty

/-- C1's dispatch priority as the claim words it: "no entities are
mentioned" and "any entity is present" quantify over all entity lists. -/
def claimDispatch (intents : List String) (e : Entities) : Handler :=
  if intents.contains "OVERVIEW" && !anyEntityAll e then .overviewH
  else if intents.contains "FRAUD" then .fraudH
  else if intents.contains "FAILURE" then .failureH
  else if intents.contains "TREND" then .trendH
  else if intents.contains "RANK" then .rankH
  else if intents.contains "COMPARE" then .compareH
  else if intents.contains "AMOUNT" || intents.contains "VOLUME" ||
    intents.contains "COUNT" then .amountH
  else if anyEntityAll e then .deepDiveH
  else .overviewH

/-- The amended dispatch contract, as an ordered first-match rule table
(first guard: `OVERVIEW` intent and none of the nine entity keys
categories/states/banks/devices/networks/tx_types/ages/months/days
non-empty; deep-dive guard: one of the seven dimension keys
categories/states/banks/devices/networks/tx_types/ages non-empty). -/
def amendedRules : List ((List String → Entities → Bool) × Handler) :=
  [(fun i e => i.contains "OVERVIEW" && !anyEntity9 e, Handler.overviewH),
   (fun i _ => i.contains "FRAUD", Handler.fraudH),
   (fun i _ => i.contains "FAILURE", Handler.failureH),
   (fun i _ => i.contains "TREND", Handler.trendH),
   (fun i _ => i.contains "RANK", Handler.rankH),
   (fun i _ => i.contains "COMPARE", Handler.compareH),
   (fun i _ => i.contains "AMOUNT" || i.contains "VOLUME" || i.contains "COUNT",
     Handler.amountH),
   (fun _ e => anyEntity7 e, Handler.deepDiveH)]

/-- First matching rule wins; the default is the Overview handler. -/
def firstMatch : List ((List String → Entities → Bool) × Handler) →
    List String → Entities → Handler
  | [], _, _ => Handler.overviewH
  | (p, h) :: rest, i, e => if p i e then h else firstMatch rest i e

/-- A model with the embedded KB and a one-entry history. -/
def modelWithHistory : Model :=
  { kb := KNOWLEDGE_BASE,
    history := [⟨"q", ["OVERVIEW"], ⟨"", "", [], "", "", 0, []⟩⟩] }

/-- The scenario query of C7. -/
def Q7 : String := "What is the average transaction amount for Shopping?"

/-! ### Training (`InsightXModel._train_from_csv.build_dim`)

One dataframe row, with the fields `build_dim` reads.  `df.groupby(col)`
partitions the rows by key; each group's aggregate row is computed over
`rows.filter (key · == k)`.  pandas iterates groups in sorted key order;
`dedup` of the key column serves here, since no claim depends on the
order of the per-dimension mapping built by training. -/

structure Row where
  amount : ℚ
  merchant_category : String
  sender_state : String
  sender_bank : String
  device_type : String
  network_type : String
  tx_type : String
  sender_age_group : String
  transaction_status : String
  day_of_week : String
  hour_of_day : ℕ
  fraud_flag : ℕ
  is_weekend : ℕ
  month : ℕ

/-- pandas `Series.median`: the middle of the sorted values, or the mean
of the two middle values for an even count. -/
def pyMedian (xs : List ℚ) : ℚ :=
  let s := xs.mergeSort (fun a b => decide (a ≤ b))
  let l := s.length
  if l % 2 = 1 then s.getD (l / 2) 0
  else (s.getD (l / 2 - 1) 0 + s.getD (l / 2) 0) / 2

/-- The aggregate record `build_dim` computes for one group `g` (a
non-empty list of rows sharing a key; `max`/`min` of an empty series have
no meaning and default to 0 here). -/
def buildDimRow (g : List Row) : Rec :=
  let amounts := g.map Row.amount
  [("count", (g.length : ℚ)),
   ("total_volume", amounts.sum),
   ("avg", roundTo 2 (amounts.sum / (g.length : ℚ))),
   ("median", pyMedian amounts),
   ("max", (amounts.max?).getD 0),
   ("min", (amounts.min?).getD 0),
   ("fraud_count", ((g.map Row.fraud_flag).sum : ℚ)),
   ("fraud_rate_pct", roundTo 3 (((g.map Row.fraud_flag).sum : ℚ) / (g.length : ℚ) * 100)),
   ("fail_rate_pct", roundTo 2
     (((g.filter (fun r => r.transaction_status == "FAILED")).length : ℚ) /
       (g.length : ℚ) * 100))]

/-- The distinct keys of `df.groupby(key)`. -/
def groupKeys (rows : List Row) (key : Row → String) : List String :=
  (rows.map key).dedup

/-- `build_dim(group_col)` of `_train_from_csv`: one aggregate record per
distinct key, over that key's group. -/
def build_dim (rows : List Row) (key : Row → String) : List (String × Rec) :=
  (groupKeys rows key).map (fun k => (k, buildDimRow (rows.filter (fun r => key r == k))))

/-- The sum of the `count` fields of a dimension mapping. -/
def dimCountSum (dim : List (String × Rec)) : ℚ :=
  (dim.map (fun kv => (recGet kv.2 "count").getD 0)).sum

/-! ## Claims -/

/-- C8: for every non-negative amount the currency formatter branches at
1e7 / 1e5 / 1e3 with two, two, and one decimal places (then the rounded
integer), and the four concrete example values format as stated. -/
theorem C8_fmt_inr_spec :
    (∀ v : ℚ, 0 ≤ v →
      fmt_inr v =
        (if v ≥ 10 ^ 7 then "₹" ++ fmtFixed 2 (v / 10 ^ 7) ++ " Cr"
         else if v ≥ 10 ^ 5 then "₹" ++ fmtFixed 2 (v / 10 ^ 5) ++ " L"
         else if v ≥ 10 ^ 3 then "₹" ++ fmtFixed 1 (v / 10 ^ 3) ++ "K"
         else "₹" ++ fmtFixed 0 v)) ∧
    fmt_inr 10000000 = "₹1.00 Cr" ∧ fmt_inr 150000 = "₹1.50 L" ∧
    fmt_inr 2500 = "₹2.5K" ∧ fmt_inr 42 = "₹42" := by
  refine ⟨fun v _ => rfl, ?_, ?_, ?_, ?_⟩ <;> with_unfolding_all rfl

/-- Witness for C8 at the concrete amount 42. -/
theorem C8_fmt_inr_spec_witness :
    fmt_inr 42 =
      (if (42 : ℚ) ≥ 10 ^ 7 then "₹" ++ fmtFixed 2 (42 / 10 ^ 7) ++ " Cr"
       else if (42 : ℚ) ≥ 10 ^ 5 then "₹" ++ fmtFixed 2 (42 / 10 ^ 5) ++ " L"
       else if (42 : ℚ) ≥ 10 ^ 3 then "₹" ++ fmtFixed 1 (42 / 10 ^ 3) ++ "K"
       else "₹" ++ fmtFixed 0 42) :=
  C8_fmt_inr_spec.1 42 (by norm_num)

/-- C10: in the Amount handler's value computation
`section.get(metric) or section.get("avg")`, a record that stores the
falsy value `0` under the requested metric reports the record's `avg`
instead, exactly as if the metric key were missing. -/
theorem C10_zero_metric_value :
    ∀ (sec : Rec) (metric : String) (a : ℚ),
      recGet sec metric = some 0 →
      recGet sec "avg" = some a →
      amountValue sec metric = some a := by
  intro sec metric a h0 ha
  simp [amountValue, pyOr, h0, ha]

/-- Witness for C10: a record with a stored zero fraud rate reports its
average. -/
theorem C10_zero_metric_value_witness :
    amountValue [("fraud_rate_pct", 0), ("avg", 5)] "fraud_rate_pct" = some 5 :=
  C10_zero_metric_value [("fraud_rate_pct", 0), ("avg", 5)] "fraud_rate_pct" 5
    (by with_unfolding_all rfl) (by with_unfolding_all rfl)

/-- C9: in the Amount handler's single-entity branch, when the looked-up
record does not contain the requested metric, or when no metric was
requested at all (`entities["metric"]` is `None`, so the requested metric
falls back to `"avg"`), the reported value is the record's `avg` field —
both in the answer string and in the `Value` stat. -/
theorem C9_missing_metric_defaults_to_avg :
    ∀ (kb : KB) (e : Entities) (q dk name : String) (a c : ℚ),
      firstAmountEntity e = some (dk, name) →
      (e.metric = none ∨
        recGet ((List.lookup name ((kbDim kb dk).getD [])).getD []) (amountMetric e) = none) →
      recGet ((List.lookup name ((kbDim kb dk).getD [])).getD []) "avg" = some a →
      recGet ((List.lookup name ((kbDim kb dk).getD [])).getD []) "count" = some c →
      (amount_report kb e q).map Response.answer =
        some ("The " ++ replaceSub (amountMetric e) "_" " " ++
          " transaction amount for " ++ name ++ " is " ++ fmt_inr a ++ ".") ∧
      ((amount_report kb e q).map Response.stats).map (List.lookup "Value") =
        some (some (fmt_inr a)) := by
  intro kb e q dk name a c hfe hm ha hc
  have hval : amountValue ((List.lookup name ((kbDim kb dk).getD [])).getD [])
      (amountMetric e) = some a := by
    rcases hm with hnone | hmiss
    · have hm' : amountMetric e = "avg" := by simp [amountMetric, hnone]
      simp [hm', amountValue, pyOr, ha]
    · simp [amountValue, pyOr, hmiss, ha]
  simp only [amount_report, hfe, hval, hc, Option.bind_some]
  constructor <;> with_unfolding_all rfl

/-- Witness for C9, one application per case of the claim: `"maximum
amount for Delhi"` requests metric `max`, which the `by_state` record of
Delhi does not carry, and `"Shopping transactions"` requests no metric at
all; both report the looked-up record's `avg` (1314.43 and 2573.09). -/
theorem C9_missing_metric_defaults_to_avg_witness :
    ((amount_report KNOWLEDGE_BASE (extract_entities "maximum amount for Delhi")
        "maximum amount for Delhi").map Response.answer =
      some ("The " ++ replaceSub (amountMetric (extract_entities "maximum amount for Delhi")) "_" " " ++
        " transaction amount for " ++ "Delhi" ++ " is " ++ fmt_inr 1314.43 ++ ".") ∧
    ((amount_report KNOWLEDGE_BASE (extract_entities "maximum amount for Delhi")
        "maximum amount for Delhi").map Response.stats).map (List.lookup "Value") =
      some (some (fmt_inr 1314.43))) ∧
    ((amount_report KNOWLEDGE_BASE (extract_entities "Shopping transactions")
        "Shopping transactions").map Response.answer =
      some ("The " ++ replaceSub (amountMetric (extract_entities "Shopping transactions")) "_" " " ++
        " transaction amount for " ++ "Shopping" ++ " is " ++ fmt_inr 2573.09 ++ ".") ∧
    ((amount_report KNOWLEDGE_BASE (extract_entities "Shopping transactions")
        "Shopping transactions").map Response.stats).map (List.lookup "Value") =
      some (some (fmt_inr 2573.09))) :=
  ⟨C9_missing_metric_defaults_to_avg KNOWLEDGE_BASE
    (extract_entities "maximum amount for Delhi") "maximum amount for Delhi"
    "by_state" "Delhi" 1314.43 24870
    (by with_unfolding_all rfl) (Or.inr (by with_unfolding_all rfl))
    (by with_unfolding_all rfl) (by with_unfolding_all rfl),
   C9_missing_metric_defaults_to_avg KNOWLEDGE_BASE
    (extract_entities "Shopping transactions") "Shopping transactions"
    "by_category" "Shopping" 2573.09 29872
    (by with_unfolding_all rfl) (Or.inl (by with_unfolding_all rfl))
    (by with_unfolding_all rfl) (by with_unfolding_all rfl)⟩

/-- C2 (code bug): the Fraud handler computes
`(rate - overall) / overall * 100` with no guard, so with a zero overall
`fraud_rate_pct` the single-entity branch raises `ZeroDivisionError`
(modelled `none`) instead of returning a response.  The query dispatches
to the Fraud handler and names Shopping, whose record is found. -/
theorem C2_fraud_divzero_raises :
    fraud_report kbZeroFraud (extract_entities "fraud rate for Shopping") = none ∧
    dispatch (classify_intent "fraud rate for Shopping")
      (extract_entities "fraud rate for Shopping") = Handler.fraudH ∧
    (extract_entities "fraud rate for Shopping").categories = ["Shopping"] := by
  refine ⟨?_, ?_, ?_⟩ <;> with_unfolding_all rfl

/-- C1 counterexample: for the query `"January"` classification falls back
to `OVERVIEW` and extraction finds only the month entity, so the claim's
priority list ("any entity present → EntityDeepDive") selects
EntityDeepDive — but the code's guards skip the month list and dispatch to
the Overview handler. -/
theorem C1_dispatch_counterexample :
    dispatch (classify_intent "January") (extract_entities "January") =
      Handler.overviewH ∧
    claimDispatch (classify_intent "January") (extract_entities "January") =
      Handler.deepDiveH ∧
    classify_intent "January" = ["OVERVIEW"] ∧
    (extract_entities "January").months = ["January"] := by
  refine ⟨?_, ?_, ?_, ?_⟩ <;> with_unfolding_all rfl

/-- C1 amended: `generate` selects its handler exactly by the first-match
rule table with the code's actual guard key lists (overview guard without
`hours`; deep-dive guard over the seven dimension lists only). -/
theorem C1_dispatch_amended :
    ∀ (intents : List String) (e : Entities),
      dispatch intents e = firstMatch amendedRules intents e := by
  intro intents e
  simp only [dispatch, amendedRules, firstMatch]

/-- C6 counterexample: a successful `query` call mutates the model state
by appending the interaction to the conversation history. -/
theorem C6_query_mutates_history :
    (query initModel "overview").2 ≠ initModel := by
  intro h
  have h1 : (query initModel "overview").2.history.length = 1 := by
    with_unfolding_all rfl
  rw [h] at h1
  exact absurd h1 (by decide)

/-- C6 amended: the returned Response is a pure function of (current KB,
question) — two models with the same KB and any histories get identical
responses, namely `generate` of the classified intents and extracted
entities — and the KB itself is never modified by a query. -/
theorem C6_query_pure_up_to_history :
    ∀ (m m' : Model) (question : String), m.kb = m'.kb →
      (query m question).1 = (query m' question).1 ∧
      (query m question).2.kb = m.kb ∧
      (query m question).1 =
        generate m.kb (classify_intent question) (extract_entities question) question := by
  intro m m' question hkb
  unfold query
  rw [hkb]
  cases hg : generate m'.kb (classify_intent question) (extract_entities question) question <;>
    simp [hg, hkb]

/-- Witness for the amended C6: the fresh model and a model with prior
history share the KB, so their responses agree and the KB is unchanged. -/
theorem C6_query_pure_up_to_history_witness :
    (query initModel "overview").1 = (query modelWithHistory "overview").1 ∧
    (query initModel "overview").2.kb = initModel.kb ∧
    (query initModel "overview").1 =
      generate initModel.kb (classify_intent "overview")
        (extract_entities "overview") "overview" :=
  C6_query_pure_up_to_history initModel modelWithHistory "overview" rfl

/-- C3: intent classification is total and non-empty on every input: it
returns exactly the intents whose pattern set matches the lowercased
query, in the fixed catalog order FRAUD, FAILURE, AMOUNT, VOLUME, COUNT,
RANK, COMPARE, TREND, OVERVIEW, ANOMALY, and exactly `["OVERVIEW"]` when
none match — in particular on the empty string. -/
theorem C3_classify_intent_total :
    (∀ q : String,
      0 < (classify_intent q).length ∧
      classify_intent q =
        (let matching := (INTENT_PATTERNS.filter
            (fun p => patternsMatch (lowerStr q) p.2)).map Prod.fst
         if matching.isEmpty then ["OVERVIEW"] else matching)) ∧
    INTENT_PATTERNS.map Prod.fst =
      ["FRAUD", "FAILURE", "AMOUNT", "VOLUME", "COUNT", "RANK", "COMPARE",
       "TREND", "OVERVIEW", "ANOMALY"] ∧
    classify_intent "" = ["OVERVIEW"] := by
  refine ⟨fun q => ⟨?_, rfl⟩, by rfl, by with_unfolding_all rfl⟩
  unfold classify_intent
  dsimp only
  split
  · simp
  · next h => exact List.length_pos.mpr (by simpa using h)

/-- C7: on the scenario query, extraction yields `categories =
["Shopping"]` and metric `avg`; the generated answer and its `Value` stat
embed the formatted `by_category["Shopping"].avg` of the active KB, which
is 2573.09 in the embedded KB. -/
theorem C7_shopping_avg_scenario :
    (extract_entities Q7).categories = ["Shopping"] ∧
    (extract_entities Q7).metric = some "avg" ∧
    (List.lookup "Shopping" KNOWLEDGE_BASE.by_category).bind
      (fun r => recGet r "avg") = some 2573.09 ∧
    (generate KNOWLEDGE_BASE (classify_intent Q7) (extract_entities Q7) Q7).map
        Response.answer =
      some ("The avg transaction amount for Shopping is " ++ fmt_inr 2573.09 ++ ".") ∧
    ((generate KNOWLEDGE_BASE (classify_intent Q7) (extract_entities Q7) Q7).map
        Response.stats).map (List.lookup "Value") = some (some (fmt_inr 2573.09)) := by
  refine ⟨?_, ?_, ?_, ?_, ?_⟩ <;> with_unfolding_all rfl

/-- The rank comparator is transitive. -/
theorem rankLE_trans (rev : Bool) :
    ∀ a b c : String × ℚ, rankLE rev a b → rankLE rev b c → rankLE rev a c := by
  intro a b c h1 h2
  cases rev <;> simp [rankLE] at h1 h2 ⊢
  · exact le_trans h1 h2
  · exact le_trans h2 h1

/-- The rank comparator is total. -/
theorem rankLE_total (rev : Bool) :
    ∀ a b : String × ℚ, rankLE rev a b || rankLE rev b a := by
  intro a b
  cases rev <;> simp [rankLE] <;> exact le_total _ _

/-- C4: `_rank_by` returns at most `top_n` pairs; the result is the
`top_n`-prefix of the stable sort of the dimension's metric-carrying
`(name, value)` pairs; that sort is a permutation of those pairs; every
returned pair comes from an entry of the dimension that carries the
metric; the result is sorted by value, descending or ascending per the
direction flag; and pairs with equal values keep the dimension mapping's
insertion order through the sort (stable ties). -/
theorem C4_rank_by_spec :
    ∀ (kb : KB) (key metric : String) (n : ℕ) (rev : Bool),
      (rank_by kb key metric n rev).length ≤ n ∧
      rank_by kb key metric n rev =
        ((rankItems ((kbDim kb key).getD []) metric).mergeSort (rankLE rev)).take n ∧
      List.Perm ((rankItems ((kbDim kb key).getD []) metric).mergeSort (rankLE rev))
        (rankItems ((kbDim kb key).getD []) metric) ∧
      (∀ p ∈ rank_by kb key metric n rev,
        ∃ r : Rec, (p.1, r) ∈ (kbDim kb key).getD [] ∧ recGet r metric = some p.2) ∧
      (rank_by kb key metric n rev).Pairwise
        (fun a b => if rev then b.2 ≤ a.2 else a.2 ≤ b.2) ∧
      (∀ a b : String × ℚ, a.2 = b.2 →
        List.Sublist [a, b] (rankItems ((kbDim kb key).getD []) metric) →
        List.Sublist [a, b]
          ((rankItems ((kbDim kb key).getD []) metric).mergeSort (rankLE rev))) := by
  intro kb key metric n rev
  refine ⟨List.length_take_le n _, rfl,
    List.mergeSort_perm (rankItems ((kbDim kb key).getD []) metric) (rankLE rev),
    ?_, ?_, ?_⟩
  · intro p hp
    have hmem : p ∈ rankItems ((kbDim kb key).getD []) metric :=
      List.mem_mergeSort.mp (List.mem_of_mem_take hp)
    obtain ⟨kv, hkv, heq⟩ := List.mem_filterMap.mp hmem
    obtain ⟨v, hv, hpv⟩ := Option.map_eq_some'.mp heq
    refine ⟨kv.2, ?_, ?_⟩
    · have : (p.1, kv.2) = kv := by rw [← hpv]
      rw [this]; exact hkv
    · rw [hv, ← hpv]
  · have hs := @List.sorted_mergeSort (String × ℚ) (rankLE rev) (rankLE_trans rev)
      (rankLE_total rev) (rankItems ((kbDim kb key).getD []) metric)
    have hs' := List.Pairwise.sublist (List.take_sublist n _) hs
    exact hs'.imp (fun h => by
      cases rev <;> simpa [rankLE] using h)
  · intro a b hab hsub
    refine List.pair_sublist_mergeSort (rankLE_trans rev) (rankLE_total rev) ?_ hsub
    cases rev <;> simp [rankLE, hab]

/-- Witness for C4: in the embedded `by_state` dimension, Andhra Pradesh
and West Bengal tie at fraud rate 0.175 and keep their insertion order
through the descending sort. -/
theorem C4_rank_by_spec_witness :
    List.Sublist [("Andhra Pradesh", (0.175 : ℚ)), ("West Bengal", (0.175 : ℚ))]
      ((rankItems ((kbDim KNOWLEDGE_BASE "by_state").getD []) "fraud_rate_pct").mergeSort
        (rankLE true)) :=
  (C4_rank_by_spec KNOWLEDGE_BASE "by_state" "fraud_rate_pct" 10 true).2.2.2.2.2
    ("Andhra Pradesh", (0.175 : ℚ)) ("West Bengal", (0.175 : ℚ)) rfl
    (by with_unfolding_all decide)

/-- The `count` field of a built aggregate record is the group size. -/
theorem recGet_buildDimRow_count (g : List Row) :
    recGet (buildDimRow g) "count" = some (g.length : ℚ) := by
  simp [recGet, buildDimRow, List.lookup]

/-- A group's size is the key's multiplicity in the key column. -/
theorem filter_length_eq_count (rows : List Row) (key : Row → String) (k : String) :
    (rows.filter (fun r => key r == k)).length = (rows.map key).count k := by
  rw [List.count, List.countP_map, ← List.countP_eq_length_filter]
  rfl

/-- C5: every per-dimension mapping of the embedded knowledge base has
its `count` fields summing to the global total transaction count of
250,000; and a dimension built by `_train_from_csv.build_dim` over a full
record set always has its per-group counts summing to the number of
records. -/
theorem C5_dimension_counts_sum :
    dimCountSum KNOWLEDGE_BASE.by_category = 250000 ∧
    dimCountSum KNOWLEDGE_BASE.by_state = 250000 ∧
    dimCountSum KNOWLEDGE_BASE.by_bank = 250000 ∧
    dimCountSum KNOWLEDGE_BASE.by_device = 250000 ∧
    dimCountSum KNOWLEDGE_BASE.by_network = 250000 ∧
    dimCountSum KNOWLEDGE_BASE.by_tx_type = 250000 ∧
    dimCountSum KNOWLEDGE_BASE.by_age = 250000 ∧
    dimCountSum KNOWLEDGE_BASE.by_hour = 250000 ∧
    dimCountSum KNOWLEDGE_BASE.by_day = 250000 ∧
    dimCountSum KNOWLEDGE_BASE.by_month = 250000 ∧
    KNOWLEDGE_BASE.total_transactions = 250000 ∧
    (∀ (rows : List Row) (key : Row → String),
      dimCountSum (build_dim rows key) = (rows.length : ℚ)) := by
  refine ⟨by with_unfolding_all rfl, by with_unfolding_all rfl,
    by with_unfolding_all rfl, by with_unfolding_all rfl,
    by with_unfolding_all rfl, by with_unfolding_all rfl,
    by with_unfolding_all rfl, by with_unfolding_all rfl,
    by with_unfolding_all rfl, by with_unfolding_all rfl, rfl, ?_⟩
  intro rows key
  unfold dimCountSum build_dim groupKeys
  rw [List.map_map]
  have hc : ∀ k ∈ (rows.map key).dedup,
      ((fun kv => (recGet kv.2 "count").getD 0) ∘
        (fun k => (k, buildDimRow (rows.filter (fun r => key r == k))))) k =
      (fun k => ((List.count k (rows.map key) : ℕ) : ℚ)) k := by
    intro k _
    simp only [Function.comp_apply, recGet_buildDimRow_count, Option.getD_some,
      filter_length_eq_count]
  rw [List.map_congr_left hc]
  rw [show ((rows.map key).dedup.map (fun k => ((List.count k (rows.map key) : ℕ) : ℚ))) =
      (((rows.map key).dedup.map (fun k => List.count k (rows.map key))).map
        (fun n : ℕ => (n : ℚ))) from by rw [List.map_map]; rfl]
  rw [← Nat.cast_list_sum]
  rw [List.sum_map_count_dedup_eq_length, List.length_map]
